import Mathlib

/-!
Verification of the `lambda_cron_company_processor` repository.

The development shallowly embeds the Python sources:
`data_mapper.py`, `bs/linkedinCompanyNewScraper.py`, `processor.py`,
`lambda_handler.py` and the defaults of `config/settings.py`.
Python dictionaries are modelled as association lists (first occurrence
wins on lookup, as in a well-formed dict every key occurs once), Python
values as the inductive `PyVal`, and Python strings as Lean `String`s.
-/

namespace CompanyProc

/-- Model of a Python value as it occurs in this repository's records:
`None`, strings, integers, booleans, lists and (nested) dicts. -/
inductive PyVal where
  | none : PyVal
  | str (s : String) : PyVal
  | int (n : Int) : PyVal
  | bool (b : Bool) : PyVal
  | list (xs : List PyVal) : PyVal
  | dict (xs : List (String × PyVal)) : PyVal

/-- Python `v is None`. -/
def PyVal.isNone : PyVal → Bool
  | PyVal.none => true
  | _ => false

/-- A Python dict with string keys, modelled as an association list. -/
abbrev PyDict := List (String × PyVal)

/-- Python whitespace characters recognised by `str.strip()` and `\s`
(ASCII fragment: space, tab, newline, carriage return, vertical tab,
form feed). -/
def isPySpace (c : Char) : Bool :=
  c = ' ' || c = '\t' || c = '\n' || c = '\r' || c = '\x0b' || c = '\x0c'

/-- Python `str.strip()` on a character list. -/
def pyStripList (l : List Char) : List Char :=
  ((l.dropWhile isPySpace).reverse.dropWhile isPySpace).reverse

/-- Python `str.strip()`. -/
def pyStrip (s : String) : String :=
  (pyStripList s.toList).asString

/-- Python truthiness (`bool(v)`) for the modelled values. -/
def pyTruthy : PyVal → Bool
  | PyVal.none => false
  | PyVal.str s => s ≠ ""
  | PyVal.int n => n ≠ 0
  | PyVal.bool b => b
  | PyVal.list xs => !xs.isEmpty
  | PyVal.dict xs => !xs.isEmpty

/-- Python `str(v)`.  For lists and dicts only the bracketed shape
matters to the code under verification (all uses are truthiness of the
stripped text), so element rendering elides `repr` quoting. -/
def pyStr : PyVal → String
  | PyVal.none => "None"
  | PyVal.str s => s
  | PyVal.int n => toString n
  | PyVal.bool b => if b then "True" else "False"
  | PyVal.list _ => "[...]"
  | PyVal.dict _ => "\x7b...\x7d"

/-- Python `d.get(k)` (first occurrence; `None` when the key is absent). -/
def dictGet (d : PyDict) (k : String) : PyVal :=
  match d.lookup k with
  | Option.some v => v
  | Option.none => PyVal.none

/-- Python `k in d`. -/
def dictHasKey (d : PyDict) (k : String) : Bool :=
  (d.lookup k).isSome

/-- Python `d[k] = v` on a dict that may already hold `k`: the first
occurrence is overwritten in place, otherwise the pair is appended. -/
def dictSet (d : PyDict) (k : String) (v : PyVal) : PyDict :=
  match d with
  | [] => [(k, v)]
  | (k', v') :: rest =>
    if k' = k then (k', v) :: rest else (k', v') :: dictSet rest k v

/-- `config.REQUIRED_FIELDS_FOR_VALIDATION` default
(`config/settings.py`). -/
def requiredFieldsForValidation : List String :=
  ["name", "about", "website", "industry", "headquarters", "headline",
   "company_size", "followers"]

/-- `config.MIN_POPULATED_FIELDS_THRESHOLD` default (`config/settings.py`). -/
def minPopulatedFieldsThreshold : Int := 3

/-- The per-field population test of `validate_extracted_data`:
`value and str(value).strip()`. -/
def fieldPopulated (data : PyDict) (field : String) : Bool :=
  pyTruthy (dictGet data field) && pyStrip (pyStr (dictGet data field)) ≠ ""

/-- `valid_fields` of `validate_extracted_data`: how many of the key
fields are populated in `data`. -/
def countPopulatedKeyFields (data : PyDict) : Nat :=
  (requiredFieldsForValidation.filter (fun f => fieldPopulated data f)).length

/-- `min_required = min_required or config.MIN_POPULATED_FIELDS_THRESHOLD`
(`data_mapper.py:134`): a falsy argument (`None` or `0`) falls back to
the configured default. -/
def resolveMinRequired (minRequired : Option Int) : Int :=
  match minRequired with
  | Option.none => minPopulatedFieldsThreshold
  | Option.some n => if n = 0 then minPopulatedFieldsThreshold else n

/-- `validate_extracted_data(data, min_required)` (`data_mapper.py:129-158`)
with the default configuration. -/
def validateExtractedData (data : PyDict) (minRequired : Option Int := Option.none) : Bool :=
  decide ((countPopulatedKeyFields data : Int) ≥ resolveMinRequired minRequired)

/-- Python `s.startswith(pre)`. -/
def pyStartsWith (s pre : String) : Bool :=
  pre.toList.isPrefixOf s.toList

/-- The website condition of `normalize_company_data`
(`str.startswith(("http://", "https://"))`). -/
def hasHttpScheme (s : String) : Bool :=
  pyStartsWith s "http://" || pyStartsWith s "https://"

/-- One pass of `re.sub(r"\s+", " ", text)`: each maximal whitespace
run is replaced by a single space.  The flag records whether the
previous character belonged to a whitespace run already emitted. -/
def collapseAux : Bool → List Char → List Char
  | _, [] => []
  | prev, c :: cs =>
    if isPySpace c then
      if prev then collapseAux true cs else ' ' :: collapseAux true cs
    else c :: collapseAux false cs

/-- `re.sub(r"\s+", " ", text)`. -/
def collapseWhitespace (s : String) : String :=
  (collapseAux false s.toList).asString

/-- The composite text cleaning of `normalize_company_data` at the
character-list level: strip, then collapse whitespace runs. -/
def cleanList (l : List Char) : List Char :=
  collapseAux false (pyStripList l)

/-- The `size_mappings` dict literal of `normalize_company_data`. -/
def sizeMappings : List (String × String) :=
  [("1-10", "1-10 employees"),
   ("11-50", "11-50 employees"),
   ("51-200", "51-200 employees"),
   ("201-500", "201-500 employees"),
   ("501-1000", "501-1000 employees"),
   ("1001-5000", "1001-5000 employees"),
   ("5001-10000", "5001-10000 employees"),
   ("10000+", "10,001+ employees")]

/-- `size_mappings.get(size, size)`. -/
def sizeMappingsGet (size : String) : String :=
  match sizeMappings.lookup size with
  | Option.some v => v
  | Option.none => size

/-- The `text_fields` list of `normalize_company_data`. -/
def normalizeTextFields : List String :=
  ["name", "about", "headline", "headquarters", "industry"]

/-- The website-cleaning step of `normalize_company_data`
(`data_mapper.py:95-98`). -/
def normalizeWebsiteStep (d : PyDict) : PyDict :=
  if dictHasKey d "website" && pyTruthy (dictGet d "website") then
    if pyStrip (pyStr (dictGet d "website")) ≠ "" &&
        !hasHttpScheme (pyStrip (pyStr (dictGet d "website"))) then
      dictSet d "website"
        (PyVal.str ("https://" ++ pyStrip (pyStr (dictGet d "website"))))
    else d
  else d

/-- The company-size normalization step of `normalize_company_data`
(`data_mapper.py:101-114`). -/
def normalizeSizeStep (d : PyDict) : PyDict :=
  if dictHasKey d "company_size" && pyTruthy (dictGet d "company_size") then
    dictSet d "company_size"
      (PyVal.str (sizeMappingsGet (pyStrip (pyStr (dictGet d "company_size")))))
  else d

/-- The per-field text cleaning of `normalize_company_data`
(`data_mapper.py:118-124`): strip, then collapse whitespace runs. -/
def normalizeTextStep (d : PyDict) (field : String) : PyDict :=
  if dictHasKey d field && pyTruthy (dictGet d field) then
    dictSet d field (PyVal.str (collapseWhitespace (pyStrip (pyStr (dictGet d field)))))
  else d

/-- `normalize_company_data(data)` (`data_mapper.py:90-126`): the copy
of `data` with website, company-size and text-field cleaning applied in
source order. -/
def normalizeCompanyData (data : PyDict) : PyDict :=
  normalizeTextFields.foldl normalizeTextStep (normalizeSizeStep (normalizeWebsiteStep data))

/-- Python `a or b` on values. -/
def pyOr (a b : PyVal) : PyVal :=
  if pyTruthy a then a else b

/-- Python `v.get(k)` on a nested dict value.  CPython raises
`AttributeError` when `v` is not a dict; the callers under verification
only reach this after a truthiness guard on provider payload members,
and the model returns `None` in the ill-typed case. -/
def pyValGet (v : PyVal) (k : String) : PyVal :=
  match v with
  | PyVal.dict xs => dictGet xs k
  | _ => PyVal.none

/-- Python `k in v` for a nested dict value (`False` when not a dict,
where CPython would raise `TypeError`). -/
def pyValHasKey (v : PyVal) (k : String) : Bool :=
  match v with
  | PyVal.dict xs => dictHasKey xs k
  | _ => false

/-- Python `v[0]` on a list value (the callers guard on truthiness
first, so the list is non-empty; `None` models the ill-typed case). -/
def pyFirstElem (v : PyVal) : PyVal :=
  match v with
  | PyVal.list (x :: _) => x
  | _ => PyVal.none

/-- Python `v[-1]` on a list value. -/
def pyLastElem (v : PyVal) : PyVal :=
  match v with
  | PyVal.list xs => xs.getLast?.getD PyVal.none
  | _ => PyVal.none

/-- Python `len(v)` for the guarded uses in the mapper. -/
def pyLen (v : PyVal) : Nat :=
  match v with
  | PyVal.list xs => xs.length
  | PyVal.dict xs => xs.length
  | PyVal.str s => s.length
  | _ => 0

/-- Python `", ".join(v)` on a list value (elements rendered with
`pyStr`; CPython requires string elements). -/
def pyJoinComma (v : PyVal) : PyVal :=
  match v with
  | PyVal.list xs => PyVal.str (String.intercalate ", " (xs.map pyStr))
  | _ => PyVal.none

/-- `last_logo.get("url") if last_logo and "url" in last_logo else None`
(`data_mapper.py:47`). -/
def logoUrl (lastLogo : PyVal) : PyVal :=
  if pyTruthy lastLogo && pyValHasKey lastLogo "url" then pyValGet lastLogo "url"
  else PyVal.none

/-- `map_rapidapi_to_standard(rapid_data)` (`data_mapper.py:11-61`):
field renames and conversions followed by dropping `None`-valued keys. -/
def mapRapidapiToStandard (rd : PyDict) : PyDict :=
  let p := dictSet [] "name" (dictGet rd "name")
  let p := dictSet p "about" (dictGet rd "description")
  let p := dictSet p "headline" (dictGet rd "tagline")
  let p := dictSet p "website" (dictGet rd "website")
  let p := if pyTruthy (dictGet rd "headquarter") then
      dictSet p "headquarters" (pyValGet (dictGet rd "headquarter") "city") else p
  let p := if pyTruthy (dictGet rd "industries") then
      dictSet p "industry"
        (if pyTruthy (dictGet rd "industries") then pyFirstElem (dictGet rd "industries")
         else PyVal.none)
    else p
  let p := if pyTruthy (dictGet rd "specialities") then
      dictSet p "specialties" (pyJoinComma (dictGet rd "specialities")) else p
  let p := if pyTruthy (dictGet rd "founded") then
      dictSet p "founded"
        (if pyTruthy (pyValGet (dictGet rd "founded") "year") then
          PyVal.str (pyStr (pyValGet (dictGet rd "founded") "year"))
         else PyVal.none)
    else p
  let p := dictSet p "company_size"
    (pyOr (dictGet rd "staffCountRange") (PyVal.str (pyStr (dictGet rd "staffCount"))))
  let p := dictSet p "followers"
    (if (dictGet rd "followerCount").isNone then PyVal.none
     else PyVal.str (pyStr (dictGet rd "followerCount")))
  let p := dictSet p "universalName" (dictGet rd "universalName")
  let p := dictSet p "phone" (dictGet rd "phone")
  let p := if pyTruthy (dictGet rd "logos") && decide (0 < pyLen (dictGet rd "logos")) then
      dictSet p "companyLogo" (logoUrl (pyLastElem (dictGet rd "logos"))) else p
  let p := dictSet p "staffCount" (dictGet rd "staffCount")
  let p := dictSet p "locations" (dictGet rd "locations")
  let p := dictSet p "crunchbaseUrl" (dictGet rd "crunchbaseUrl")
  let p := dictSet p "fundingData" (dictGet rd "fundingData")
  let p := dictSet p "type" (pyOr (dictGet rd "type") (dictGet p "type"))
  p.filter (fun kv => !kv.2.isNone)

/-- The `standard_fields` allow-list of `map_jina_to_standard`. -/
def jinaStandardFields : List String :=
  ["name", "about", "website", "industry", "headquarters",
   "headline", "company_size", "followers", "specialties",
   "type", "founded", "companyLogo"]

/-- `map_jina_to_standard(jina_data)` (`data_mapper.py:64-87`):
truthy-valued allow-listed fields copied over, then the shared
normalization step. -/
def mapJinaToStandard (jd : PyDict) : PyDict :=
  normalizeCompanyData
    (jinaStandardFields.foldl
      (fun p f =>
        if dictHasKey jd f && pyTruthy (dictGet jd f) then dictSet p f (dictGet jd f)
        else p)
      [])

/-- `populated_fields` of `calculate_data_quality_score`
(`data_mapper.py:287`): populated entries over the whole record. -/
def countPopulatedEntries (d : PyDict) : Nat :=
  (d.filter (fun kv => pyTruthy kv.2 && pyStrip (pyStr kv.2) ≠ "")).length

/-- The fixed `critical_fields` list of `calculate_data_quality_score`
(`data_mapper.py:284`). -/
def criticalFieldsQuality : List String :=
  ["name", "about", "website", "industry"]

/-- `critical_populated` (`data_mapper.py:289`). -/
def countCriticalPopulated (d : PyDict) : Nat :=
  (criticalFieldsQuality.filter (fun f => fieldPopulated d f)).length

/-- `field_score` (`data_mapper.py:292`): the populated-entry count of
the whole record over the configured key-field count. -/
def fieldScore (d : PyDict) : ℚ :=
  if 0 < requiredFieldsForValidation.length then
    (countPopulatedEntries d : ℚ) / (requiredFieldsForValidation.length : ℚ) * 100
  else 0

/-- `critical_score` (`data_mapper.py:293`). -/
def criticalScore (d : PyDict) : ℚ :=
  if criticalFieldsQuality ≠ [] then
    (countCriticalPopulated d : ℚ) / (criticalFieldsQuality.length : ℚ) * 100
  else 0

/-- `completeness_score` (`data_mapper.py:294`). -/
def completenessScore (d : PyDict) : ℚ :=
  if requiredFieldsForValidation ≠ [] then
    min 100 ((countPopulatedEntries d : ℚ) / (requiredFieldsForValidation.length : ℚ) * 100)
  else 0

/-- `speed_score` (`data_mapper.py:297`). -/
def speedScore (t : ℚ) : ℚ :=
  if 0 < t then max 0 (100 - t * 10) else 100

/-- `overall_score` (`data_mapper.py:300-305`). -/
def overallScore (d : PyDict) (t : ℚ) : ℚ :=
  fieldScore d * (3 / 10) + criticalScore d * (4 / 10) +
    completenessScore d * (2 / 10) + speedScore t * (1 / 10)

/-- The grade cutoffs (`data_mapper.py:308-319`). -/
def gradeFor (overall : ℚ) : String :=
  if overall ≥ 90 then "A+"
  else if overall ≥ 80 then "A"
  else if overall ≥ 70 then "B"
  else if overall ≥ 60 then "C"
  else if overall ≥ 50 then "D"
  else "F"

/-- Python `round(x, 1)` over exact rationals, with the half-to-even
tie-breaking of `round` (binary floating-point representation error is
not modelled). -/
def roundHalfEven (q : ℚ) : Int :=
  if q - Int.floor q < 1 / 2 then Int.floor q
  else if q - Int.floor q > 1 / 2 then Int.floor q + 1
  else if Int.floor q % 2 = 0 then Int.floor q else Int.floor q + 1

/-- `round(q, 1)`. -/
def pyRound1 (q : ℚ) : ℚ := (roundHalfEven (q * 10) : ℚ) / 10

/-- The mapping returned by `calculate_data_quality_score`
(`data_mapper.py:264-332`; the `processing_time` echo field is
omitted, it is the argument unchanged). -/
structure QualityScore where
  overall_score : ℚ
  field_score : ℚ
  critical_score : ℚ
  completeness_score : ℚ
  speed_score : ℚ
  populated_fields : Nat
  total_fields : Nat
  critical_fields : Nat
  grade : String

/-- `calculate_data_quality_score(data, processing_time)`
(`data_mapper.py:264-332`): all-zero scores and grade F for a falsy
record, otherwise the four weighted sub-scores rounded to one decimal. -/
def calculateDataQualityScore (d : PyDict) (t : ℚ) : QualityScore :=
  if d.isEmpty then
    ⟨0, 0, 0, 0, 0, 0, 0, 0, "F"⟩
  else
    ⟨pyRound1 (overallScore d t), pyRound1 (fieldScore d), pyRound1 (criticalScore d),
     pyRound1 (completenessScore d), pyRound1 (speedScore t),
     countPopulatedEntries d, requiredFieldsForValidation.length,
     countCriticalPopulated d, gradeFor (overallScore d t)⟩

/-- Python `s.replace(",", "")`. -/
def removeCommas (s : String) : String :=
  (s.toList.filter (fun c => c ≠ ',')).asString

/-- Python `s.replace("\n", " ")`. -/
def replaceNewlines (s : String) : String :=
  (s.toList.map (fun c => if c = '\n' then ' ' else c)).asString

/-- Python `" ".join(s.split())`: whitespace-delimited words rejoined
with single spaces. -/
def joinSplitWords (s : String) : String :=
  String.intercalate " " ((s.split (fun c => isPySpace c)).filter (fun w => w ≠ ""))

/-- `match.group(i)` on a model of a Python regex match object as the
list of its groups (index 0 is the whole match). -/
def matchGroup (m : List String) (i : Nat) : String :=
  m.getD i ""

/-- The impure library services of `html_to_object`, abstracted: the
`re.search` engine (pattern, text ↦ match groups or no match),
`html.unescape`, the two `re.sub` boilerplate-stripping calls on the
about text (patterns `\n*Check out our career opportunities.*` and
`\n\*\*\* Imprint / Impressum:.*`, DOTALL+IGNORECASE), and the
`urlparse`/`parse_qs` extraction of the `url` query parameter of a
LinkedIn redirect URL (`None` models both a missing parameter and a
parsing exception). -/
structure HtmlRegexEnv where
  search : String → String → Option (List String)
  unescape : String → String
  subCareer : String → String
  subImprint : String → String
  redirectUrlParam : String → Option String

/-- The regex environment in which no pattern ever matches. -/
def noMatchEnv : HtmlRegexEnv :=
  { search := fun _ _ => Option.none
    unescape := id
    subCareer := id
    subImprint := id
    redirectUrlParam := fun _ => Option.none }

/-- Regex literal of `linkedinCompanyNewScraper.py:47` (company name). -/
def patTitleH1 : String :=
  "<h1\\s+class=\"top-card-layout__title.*?>(.*?)</h1>"

/-- Regex literal of `linkedinCompanyNewScraper.py:53` (headquarters). -/
def patHeadquarters : String :=
  "<div[^>]*data-test-id=\"about-us__headquarters\"[^>]*>.*?<dd[^>]*>(.*?)</dd>"

/-- Regex literal of `linkedinCompanyNewScraper.py:60` (followers). -/
def patFollowers : String :=
  "<h3\\s+class=\"top-card-layout__first-subline.*?<span.*?</span>\\s*([^<]+?)\\s*followers"

/-- Regex literal of `linkedinCompanyNewScraper.py:66` (combined h3). -/
def patFirstSubline : String :=
  "<h3\\s+class=\"top-card-layout__first-subline.*?>(.*?)<span.*?</span>(.*?)</h3>"

/-- Regex literal of `linkedinCompanyNewScraper.py:73` (follower count). -/
def patFollowerNum : String :=
  "([\\d,]+)\\s+followers"

/-- Regex literal of `linkedinCompanyNewScraper.py:79` (about section). -/
def patAboutSection : String :=
  "<section[^>]*data-test-id=\"about-us\".*?>(.*?)</section>"

/-- Regex literal of `linkedinCompanyNewScraper.py:84` (description). -/
def patAboutDescription : String :=
  "<p[^>]*data-test-id=\"about-us__description\"[^>]*>(.*?)</p>"

/-- Regex literal of `linkedinCompanyNewScraper.py:96` (website href). -/
def patWebsiteHref : String :=
  "<div[^>]*data-test-id=\"about-us__website\"[^>]*>.*?<a[^>]*href=\"(.*?)\"[^>]*>.*?</a>"

/-- Regex literal of `linkedinCompanyNewScraper.py:100` (website text fallback). -/
def patWebsiteText : String :=
  "<div[^>]*data-test-id=\"about-us__website\"[^>]*>.*?<a[^>]*>(.*?)<[/]?icon"

/-- Regex literal of `linkedinCompanyNewScraper.py:122` (industry). -/
def patIndustry : String :=
  "<div[^>]*data-test-id=\"about-us__industry\"[^>]*>.*?<dd[^>]*>(.*?)</dd>"

/-- Regex literal of `linkedinCompanyNewScraper.py:128` (company size). -/
def patSize : String :=
  "<div[^>]*data-test-id=\"about-us__size\"[^>]*>.*?<dd[^>]*>(.*?)</dd>"

/-- Regex literal of `linkedinCompanyNewScraper.py:132` (size core). -/
def patSizeCore : String :=
  "([\\d,]+(?:-\\d\x7b1,3\x7d(?:,\\d\x7b3\x7d)*|\\+)?)\\s+employees"

/-- Regex literal of `linkedinCompanyNewScraper.py:136` (leading numeral run). -/
def patSizeNum : String :=
  "^[\\d,-]+\\+?"

/-- Regex literal of `linkedinCompanyNewScraper.py:144` (organization type). -/
def patOrgType : String :=
  "<div[^>]*data-test-id=\"about-us__organizationType\"[^>]*>.*?<dd[^>]*>(.*?)</dd>"

/-- Regex literal of `linkedinCompanyNewScraper.py:150` (specialties). -/
def patSpecialties : String :=
  "<div[^>]*data-test-id=\"about-us__specialties\"[^>]*>.*?<dd[^>]*>(.*?)</dd>"

/-- Regex literal of `linkedinCompanyNewScraper.py:156` (headline). -/
def patHeadline : String :=
  "<h2\\s+class=\"top-card-layout__headline.*?>(.*?)</h2>"

/-- The `data` dict of `html_to_object`, with its ten baseline fields
(all default to the empty string). -/
structure ExtractedCompany where
  type : String := ""
  name : String := ""
  about : String := ""
  company_size : String := ""
  followers : String := ""
  headquarters : String := ""
  industry : String := ""
  specialties : String := ""
  website : String := ""
  headline : String := ""

/-- The return dict of `html_to_object` in the literal's key order.
The final `None`-to-`""` cleanup loop of the source is a no-op here
because every assignment stores a string. -/
def extractedToDict (d : ExtractedCompany) : PyDict :=
  [("type", PyVal.str d.type), ("name", PyVal.str d.name),
   ("about", PyVal.str d.about), ("company_size", PyVal.str d.company_size),
   ("followers", PyVal.str d.followers), ("headquarters", PyVal.str d.headquarters),
   ("industry", PyVal.str d.industry), ("specialties", PyVal.str d.specialties),
   ("website", PyVal.str d.website), ("headline", PyVal.str d.headline)]

/-- `html_to_object(html_content)`
(`bs/linkedinCompanyNewScraper.py:14-175`), parameterized by the
library environment.  Empty or non-string input returns the empty
dict; otherwise ten regex-driven extractions fill the baseline
record.  The model's total functions cannot raise, which matches the
source: its `try` body only calls `re`/`html`/`urllib` helpers on
strings and its `except` merely logs. -/
def htmlToObject (env : HtmlRegexEnv) (htmlContent : PyVal) : PyDict :=
  match htmlContent with
  | PyVal.str s =>
    if s = "" then []
    else
      let d : ExtractedCompany := {}
      let d := match env.search patTitleH1 s with
        | Option.some m => { d with name := env.unescape (pyStrip (matchGroup m 1)) }
        | Option.none => d
      let d := match env.search patHeadquarters s with
        | Option.some m =>
          { d with headquarters := env.unescape (pyStrip (matchGroup m 1)) }
        | Option.none => d
      let d := match env.search patFollowers s with
        | Option.some m =>
          { d with followers :=
              pyStrip (removeCommas (env.unescape (pyStrip (matchGroup m 1)))) }
        | Option.none =>
          match env.search patFirstSubline s with
          | Option.some m2 =>
            let d := if d.headquarters = "" then
                { d with headquarters := env.unescape (pyStrip (matchGroup m2 1)) }
              else d
            let followersText := env.unescape (pyStrip (matchGroup m2 2))
            match env.search patFollowerNum followersText with
            | Option.some m3 =>
              { d with followers := pyStrip (removeCommas (matchGroup m3 1)) }
            | Option.none => d
          | Option.none => d
      let d := match env.search patAboutSection s with
        | Option.some mSec =>
          let aboutSectionHtml := matchGroup mSec 1
          let d := match env.search patAboutDescription aboutSectionHtml with
            | Option.some m =>
              let rawAbout := env.unescape (pyStrip (matchGroup m 1))
              let rawAbout := pyStrip (env.subCareer rawAbout)
              let rawAbout := pyStrip (env.subImprint rawAbout)
              let cleanedAbout := pyStrip (replaceNewlines rawAbout)
              { d with about := joinSplitWords cleanedAbout }
            | Option.none => d
          let websiteUrl := match env.search patWebsiteHref aboutSectionHtml with
            | Option.some m => env.unescape (pyStrip (matchGroup m 1))
            | Option.none =>
              match env.search patWebsiteText aboutSectionHtml with
              | Option.some m =>
                let potentialUrl := env.unescape (pyStrip (matchGroup m 1))
                if pyStartsWith potentialUrl "http://" ||
                    pyStartsWith potentialUrl "https://" then potentialUrl
                else ""
              | Option.none => ""
          let websiteUrl :=
            if pyStartsWith websiteUrl "https://www.linkedin.com/redir/redirect?" then
              match env.redirectUrlParam websiteUrl with
              | Option.some u => u
              | Option.none => websiteUrl
            else websiteUrl
          let d := { d with website := websiteUrl }
          let d := match env.search patIndustry aboutSectionHtml with
            | Option.some m =>
              { d with industry := env.unescape (pyStrip (matchGroup m 1)) }
            | Option.none => d
          let d := match env.search patSize aboutSectionHtml with
            | Option.some m =>
              let sizeText := env.unescape (pyStrip (matchGroup m 1))
              match env.search patSizeCore sizeText with
              | Option.some mc =>
                { d with company_size := pyStrip (matchGroup mc 1) ++ " employees" }
              | Option.none =>
                match env.search patSizeNum sizeText with
                | Option.some mn =>
                  { d with company_size := pyStrip (matchGroup mn 0) ++ " employees" }
                | Option.none => { d with company_size := sizeText }
            | Option.none => d
          let d := match env.search patOrgType aboutSectionHtml with
            | Option.some m =>
              { d with type := env.unescape (pyStrip (matchGroup m 1)) }
            | Option.none => d
          let d := match env.search patSpecialties aboutSectionHtml with
            | Option.some m =>
              { d with specialties := env.unescape (pyStrip (matchGroup m 1)) }
            | Option.none => d
          d
        | Option.none => d
      let d := match env.search patHeadline s with
        | Option.some m => { d with headline := env.unescape (pyStrip (matchGroup m 1)) }
        | Option.none => d
      extractedToDict d
  | _ => []

/-- Python `{**a, **b}`: the keys of `a` in order with values
overridden by `b`, then the keys of `b` absent from `a` in order. -/
def pyDictMerge (a b : PyDict) : PyDict :=
  a.map (fun kv =>
    (kv.1, match b.lookup kv.1 with
           | Option.some v => v
           | Option.none => kv.2)) ++
    b.filter (fun kv => (a.lookup kv.1).isNone)

/-- `add_processing_metadata(data, method, original_url)`
(`data_mapper.py:161-192`).  `now` stands for the
`datetime.datetime.now(...)` value and `workerId` for
`config.WORKER_ID` (referenced by the source but not defined in the
provided `config/settings.py`; it is modelled as an
environment-supplied value). -/
def processingMetadataDict (now workerId : PyVal) (method : String) : PyDict :=
  [("platform", PyVal.str "linkedin"), ("scrapped", PyVal.bool true),
   ("extracted", PyVal.bool true), ("processed_via", PyVal.str method),
   ("extractedAt", now), ("scrappedAt", now), ("processedAt", now),
   ("websiteMarkdownStatus", PyVal.str "not_attempted"),
   ("processor_version", PyVal.str "new_company_processor_v1"),
   ("worker_id", workerId)] ++
  (if method = "jina" then [("extraction_method", PyVal.str "html_parsing")]
   else if method = "rapidapi" then [("extraction_method", PyVal.str "api_direct")]
   else [])

/-- The merge, url-preservation and `None`-dropping steps of
`add_processing_metadata` (`data_mapper.py:184-192`). -/
def addProcessingMetadata (now workerId : PyVal) (data : PyDict) (method : String)
    (originalUrl : PyVal) : PyDict :=
  let result := pyDictMerge data (processingMetadataDict now workerId method)
  let result := if pyTruthy originalUrl then dictSet result "url" originalUrl else result
  result.filter (fun kv => !kv.2.isNone)

/-- `len([k for k, v in d.items() if v])`. -/
def countTruthyEntries (d : PyDict) : Nat :=
  (d.filter (fun kv => pyTruthy kv.2)).length

/-- `NewCompanyProcessor._success_result` (`processor.py:22-43`; the
optional `metadata` argument is never passed by the callers). -/
def successResult (webpageId via : String) (nodesUpdated : Int)
    (fieldsExtracted : Nat) : PyDict :=
  [("success", PyVal.bool true), ("via", PyVal.str via),
   ("webpageId", PyVal.str webpageId), ("webpage_id", PyVal.str webpageId),
   ("nodesUpdated", PyVal.int nodesUpdated), ("nodes_updated", PyVal.int nodesUpdated),
   ("fieldsExtracted", PyVal.int fieldsExtracted),
   ("fields_extracted", PyVal.int fieldsExtracted)]

/-- `NewCompanyProcessor._failure_result` (`processor.py:45-63`). -/
def failureResult (webpageId error : String) (errorType : Option String)
    (extra : PyDict) : PyDict :=
  [("success", PyVal.bool false), ("webpageId", PyVal.str webpageId),
   ("webpage_id", PyVal.str webpageId), ("error", PyVal.str error)] ++
    (match errorType with
     | Option.some et => [("errorType", PyVal.str et)]
     | Option.none => []) ++
    extra

/-- A backend or provider call observed during one orchestration run. -/
inductive SvcCall where
  | fetchWebpage (webpageId : String)
  | updateWebpage (webpageId : String) (data : PyDict)
  | markWebpageFailed (webpageId errorType errorMessage : String)
  | updateNodes (webpageId : String) (data : PyDict)
  | cleanupFailedWebpage (webpageId : String)
  | jinaFetch (url : PyVal)
  | rapidFetch (url : PyVal)

/-- The collaborators and configuration of `NewCompanyProcessor`.
Every backend or provider call either returns a value or raises, the
exception modelled as `Except.error` with its message; responses are
functions of the call arguments.  `rapidapiConfigured` is the
truthiness of `config.RAPIDAPI_KEY` (`processor.py:20`). -/
structure ProcEnv where
  cleanupOnFailure : Bool
  rapidapiConfigured : Bool
  now : PyVal
  workerId : PyVal
  regex : HtmlRegexEnv
  fetchWebpage : String → Except String (Option PyDict)
  updateWebpage : String → PyDict → Except String Bool
  markWebpageFailed : String → String → String → Except String Bool
  updateNodes : String → PyDict → Except String Int
  cleanupFailedWebpage : String → Except String Bool
  jinaFetch : PyVal → Except String (Option String)
  rapidFetch : PyVal → Except String (Option PyDict)

/-- Truthiness of the fetched HTML (`if not html_content`). -/
def optStrTruthy (o : Option String) : Bool :=
  match o with
  | Option.some s => s ≠ ""
  | Option.none => false

/-- Truthiness of a fetched dict (`if not webpage` / `if not rapid_data`). -/
def optDictTruthy (o : Option PyDict) : Bool :=
  match o with
  | Option.some d => !d.isEmpty
  | Option.none => false

/-- The `except Exception` handler of `process_with_jina`
(`processor.py:186-190`): mark the webpage failed and return a
structured failure; if the mark call itself raises, the exception
propagates. -/
def jinaExceptHandler (env : ProcEnv) (wid e : String) (tr : List SvcCall) :
    Except String PyDict × List SvcCall :=
  let msg := "Jina processing error for webpage " ++ wid ++ ": " ++ e
  match env.markWebpageFailed wid "jina_processing_error" msg with
  | Except.ok _ =>
    (Except.ok (failureResult wid msg (Option.some "jina_processing_error") []),
     tr ++ [SvcCall.markWebpageFailed wid "jina_processing_error" msg])
  | Except.error e2 =>
    (Except.error e2, tr ++ [SvcCall.markWebpageFailed wid "jina_processing_error" msg])

/-- A `mark_webpage_failed` call inside the `try` of
`process_with_jina` followed by a structured failure return; a raise
from the mark call lands in the handler. -/
def jinaMarkAndFail (env : ProcEnv) (wid etype emsg rerror rtype : String)
    (tr : List SvcCall) : Except String PyDict × List SvcCall :=
  match env.markWebpageFailed wid etype emsg with
  | Except.ok _ =>
    (Except.ok (failureResult wid rerror (Option.some rtype) []),
     tr ++ [SvcCall.markWebpageFailed wid etype emsg])
  | Except.error e =>
    jinaExceptHandler env wid e (tr ++ [SvcCall.markWebpageFailed wid etype emsg])

/-- `NewCompanyProcessor.process_with_jina` (`processor.py:134-190`).
`html_to_object` and the validator cannot raise in the model (nor in
the source: the former catches internally), so the inner `try` of
lines 146-159 has no live `except` path. -/
def processWithJina (env : ProcEnv) (wid : String) (url : PyVal) :
    Except String PyDict × List SvcCall :=
  match env.jinaFetch url with
  | Except.error e => jinaExceptHandler env wid e [SvcCall.jinaFetch url]
  | Except.ok htmlOpt =>
    if optStrTruthy htmlOpt then
      let extractedData := htmlToObject env.regex (PyVal.str (htmlOpt.getD ""))
      if extractedData.isEmpty then
        jinaMarkAndFail env wid "html_parsing_failed" "HTML parsing returned no data"
          "html_parsing_failed" "html_parsing_failed" [SvcCall.jinaFetch url]
      else if validateExtractedData extractedData then
        let updateData := addProcessingMetadata env.now env.workerId extractedData "jina" url
        match env.updateWebpage wid updateData with
        | Except.error e =>
          jinaExceptHandler env wid e
            [SvcCall.jinaFetch url, SvcCall.updateWebpage wid updateData]
        | Except.ok ok =>
          if ok then
            match env.updateNodes wid extractedData with
            | Except.error e =>
              jinaExceptHandler env wid e
                [SvcCall.jinaFetch url, SvcCall.updateWebpage wid updateData,
                 SvcCall.updateNodes wid extractedData]
            | Except.ok updatedNodes =>
              (Except.ok (successResult wid "jina" updatedNodes
                  (countTruthyEntries extractedData)),
               [SvcCall.jinaFetch url, SvcCall.updateWebpage wid updateData,
                SvcCall.updateNodes wid extractedData])
          else
            jinaMarkAndFail env wid "database_update_failed"
              "Failed to update webpage in database" "database_update_failed"
              "database_update_failed"
              [SvcCall.jinaFetch url, SvcCall.updateWebpage wid updateData]
      else
        jinaMarkAndFail env wid "data_validation_failed"
          "Insufficient data extracted from HTML" "data_validation_failed"
          "data_validation_failed" [SvcCall.jinaFetch url]
    else
      jinaMarkAndFail env wid "jina_fetch_failed" "Failed to fetch HTML from Jina API"
        "jina_fetch_failed" "jina_fetch_failed" [SvcCall.jinaFetch url]

/-- The `except Exception` handler of `process_with_rapidapi`
(`processor.py:244-248`). -/
def rapidExceptHandler (env : ProcEnv) (wid e : String) (tr : List SvcCall) :
    Except String PyDict × List SvcCall :=
  let msg := "RapidAPI processing error for webpage " ++ wid ++ ": " ++ e
  match env.markWebpageFailed wid "rapidapi_processing_error" msg with
  | Except.ok _ =>
    (Except.ok (failureResult wid msg (Option.some "rapidapi_processing_error") []),
     tr ++ [SvcCall.markWebpageFailed wid "rapidapi_processing_error" msg])
  | Except.error e2 =>
    (Except.error e2, tr ++ [SvcCall.markWebpageFailed wid "rapidapi_processing_error" msg])

/-- A `mark_webpage_failed` call inside the `try` of
`process_with_rapidapi` followed by a structured failure return. -/
def rapidMarkAndFail (env : ProcEnv) (wid etype emsg rerror rtype : String)
    (tr : List SvcCall) : Except String PyDict × List SvcCall :=
  match env.markWebpageFailed wid etype emsg with
  | Except.ok _ =>
    (Except.ok (failureResult wid rerror (Option.some rtype) []),
     tr ++ [SvcCall.markWebpageFailed wid etype emsg])
  | Except.error e =>
    rapidExceptHandler env wid e (tr ++ [SvcCall.markWebpageFailed wid etype emsg])

/-- `NewCompanyProcessor.process_with_rapidapi` (`processor.py:192-248`).
`map_rapidapi_to_standard` is total in the model, so the inner
`except` of lines 209-217 has no live path. -/
def processWithRapidapi (env : ProcEnv) (wid : String) (url : PyVal) :
    Except String PyDict × List SvcCall :=
  match env.rapidFetch url with
  | Except.error e => rapidExceptHandler env wid e [SvcCall.rapidFetch url]
  | Except.ok rdOpt =>
    if optDictTruthy rdOpt then
      let mappedData := mapRapidapiToStandard (rdOpt.getD [])
      if mappedData.isEmpty then
        rapidMarkAndFail env wid "data_mapping_failed" "RapidAPI data mapping failed"
          "data_mapping_failed" "data_mapping_failed" [SvcCall.rapidFetch url]
      else if validateExtractedData mappedData then
        let updateData := addProcessingMetadata env.now env.workerId mappedData "rapidapi" url
        match env.updateWebpage wid updateData with
        | Except.error e =>
          rapidExceptHandler env wid e
            [SvcCall.rapidFetch url, SvcCall.updateWebpage wid updateData]
        | Except.ok ok =>
          if ok then
            match env.updateNodes wid mappedData with
            | Except.error e =>
              rapidExceptHandler env wid e
                [SvcCall.rapidFetch url, SvcCall.updateWebpage wid updateData,
                 SvcCall.updateNodes wid mappedData]
            | Except.ok updatedNodes =>
              (Except.ok (successResult wid "rapidapi" updatedNodes
                  (countTruthyEntries mappedData)),
               [SvcCall.rapidFetch url, SvcCall.updateWebpage wid updateData,
                SvcCall.updateNodes wid mappedData])
          else
            rapidMarkAndFail env wid "database_update_failed"
              "Failed to update webpage with RapidAPI data" "database_update_failed"
              "database_update_failed"
              [SvcCall.rapidFetch url, SvcCall.updateWebpage wid updateData]
      else
        rapidMarkAndFail env wid "data_validation_failed" "RapidAPI data validation failed"
          "data_validation_failed" "data_validation_failed" [SvcCall.rapidFetch url]
    else
      rapidMarkAndFail env wid "rapidapi_failed_api" "RapidAPI returned no data"
        "rapidapi_fetch_failed" "rapidapi_fetch_failed" [SvcCall.rapidFetch url]

/-- The `except Exception` handler of `process_webpage`
(`processor.py:126-132`): log, mark the webpage failed with the
generic `processing_error` label, and return a structured failure; if
the mark call itself raises inside the handler, the exception escapes
the orchestrator. -/
def processingErrorHandler (env : ProcEnv) (wid e : String) (tr : List SvcCall) :
    Except String PyDict × List SvcCall :=
  let msg := "Unexpected error processing webpage " ++ wid ++ ": " ++ e
  match env.markWebpageFailed wid "processing_error" msg with
  | Except.ok _ =>
    (Except.ok (failureResult wid msg (Option.some "processing_error") []),
     tr ++ [SvcCall.markWebpageFailed wid "processing_error" msg])
  | Except.error e2 =>
    (Except.error e2, tr ++ [SvcCall.markWebpageFailed wid "processing_error" msg])

/-- The combined failure result of `process_webpage`
(`processor.py:116-124`). -/
def bothFailedResult (wid : String) (jr rr : PyDict) : PyDict :=
  failureResult wid "both_apis_failed" (Option.some "both_apis_failed")
    [("jinaError", dictGet jr "error"), ("rapidapiError", dictGet rr "error")]

/-- The both-methods-failed tail of `process_webpage`
(`processor.py:105-124`): cleanup when `config.CLEANUP_ON_FAILURE` is
set, mark-failed otherwise, then the combined failure result. -/
def bothFailedTail (env : ProcEnv) (wid : String) (jr rr : PyDict)
    (tr : List SvcCall) : Except String PyDict × List SvcCall :=
  let emsg := "Both Jina and RapidAPI failed for webpage " ++ wid
  if env.cleanupOnFailure then
    match env.cleanupFailedWebpage wid with
    | Except.error e =>
      processingErrorHandler env wid e (tr ++ [SvcCall.cleanupFailedWebpage wid])
    | Except.ok _ =>
      (Except.ok (bothFailedResult wid jr rr), tr ++ [SvcCall.cleanupFailedWebpage wid])
  else
    match env.markWebpageFailed wid "both_apis_failed" emsg with
    | Except.error e =>
      processingErrorHandler env wid e
        (tr ++ [SvcCall.markWebpageFailed wid "both_apis_failed" emsg])
    | Except.ok _ =>
      (Except.ok (bothFailedResult wid jr rr),
       tr ++ [SvcCall.markWebpageFailed wid "both_apis_failed" emsg])

/-- `NewCompanyProcessor.process_webpage` (`processor.py:65-132`),
returning the structured result (or the escaped exception) together
with the chronological trace of collaborator calls. -/
def processWebpage (env : ProcEnv) (wid : String) :
    Except String PyDict × List SvcCall :=
  match env.fetchWebpage wid with
  | Except.error e => processingErrorHandler env wid e [SvcCall.fetchWebpage wid]
  | Except.ok wOpt =>
    if optDictTruthy wOpt then
      let webpage := wOpt.getD []
      let url := dictGet webpage "url"
      if pyTruthy url then
        match processWithJina env wid url with
        | (Except.error e, trJ) =>
          processingErrorHandler env wid e (SvcCall.fetchWebpage wid :: trJ)
        | (Except.ok jinaResult, trJ) =>
          if pyTruthy (dictGet jinaResult "success") then
            (Except.ok jinaResult, SvcCall.fetchWebpage wid :: trJ)
          else
            if env.rapidapiConfigured then
              match processWithRapidapi env wid url with
              | (Except.error e, trR) =>
                processingErrorHandler env wid e
                  ((SvcCall.fetchWebpage wid :: trJ) ++ trR)
              | (Except.ok rapidResult, trR) =>
                if pyTruthy (dictGet rapidResult "success") then
                  (Except.ok rapidResult, (SvcCall.fetchWebpage wid :: trJ) ++ trR)
                else
                  bothFailedTail env wid jinaResult rapidResult
                    ((SvcCall.fetchWebpage wid :: trJ) ++ trR)
            else
              bothFailedTail env wid jinaResult
                [("success", PyVal.bool false),
                 ("error", PyVal.str "rapidapi_key_not_configured")]
                (SvcCall.fetchWebpage wid :: trJ)
      else
        let emsg := "No URL found for webpage " ++ wid
        match env.markWebpageFailed wid "missing_url" emsg with
        | Except.error e =>
          processingErrorHandler env wid e
            [SvcCall.fetchWebpage wid, SvcCall.markWebpageFailed wid "missing_url" emsg]
        | Except.ok _ =>
          (Except.ok (failureResult wid emsg (Option.some "missing_url") []),
           [SvcCall.fetchWebpage wid, SvcCall.markWebpageFailed wid "missing_url" emsg])
    else
      (Except.ok (failureResult wid ("Webpage " ++ wid ++ " not found")
          (Option.some "webpage_not_found") []),
       [SvcCall.fetchWebpage wid])

/-- Python `d.get(k, default)`: the default applies only when the key
is absent. -/
def dictGetD (d : PyDict) (k : String) (default : PyVal) : PyVal :=
  match d.lookup k with
  | Option.some v => v
  | Option.none => default

/-- Python `d.pop(k, None)`: the entry for `k` removed. -/
def dictPop (d : PyDict) (k : String) : PyDict :=
  d.filter (fun kv => kv.1 ≠ k)

/-- The collaborators of `lambda_handler`: the processor environment,
`json.loads` (`None` models a `JSONDecodeError`), and
`compare_apis_for_webpage` (abstracted: its output embeds wall-clock
stage timings, which are not modelled). -/
structure LambdaEnv where
  proc : ProcEnv
  jsonLoads : String → Option PyVal
  compareApis : String → Except String PyDict

/-- Python `s.lower()` (character-list based so that it reduces in the
kernel; `String.toLower` is an equivalent positional implementation). -/
def pyLower (s : String) : String :=
  (s.toList.map Char.toLower).asString

/-- `_extract_payload(event)` (`lambda_handler.py:30-45`): decode a
string body (defaulting to `{}` on falsy body or decode error), then
use the body when it is a non-empty dict, the event otherwise. -/
def extractPayload (lenv : LambdaEnv) (event : PyDict) : PyDict :=
  let body :=
    match dictGet event "body" with
    | PyVal.str s =>
      if s = "" then PyVal.dict []
      else
        match lenv.jsonLoads s with
        | Option.some v => v
        | Option.none => PyVal.dict []
    | other => other
  match body with
  | PyVal.dict xs => if xs.isEmpty then event else xs
  | _ => event

/-- The response body built for the `process` action
(`lambda_handler.py:84-107`). -/
def lambdaProcessResponseBody (payload r : PyDict) : PyDict :=
  let body : PyDict :=
    [("webpageId", dictGet payload "webpageId"),
     ("nodeId", dictGet payload "nodeId"),
     ("userId", dictGet payload "userId"),
     ("success", PyVal.bool (pyTruthy (dictGet r "success"))),
     ("via", dictGet r "via"),
     ("nodesUpdated", dictGetD r "nodesUpdated" (dictGetD r "nodes_updated" (PyVal.int 0))),
     ("nodes_updated", dictGetD r "nodes_updated" (dictGetD r "nodesUpdated" (PyVal.int 0))),
     ("fieldsExtracted", dictGetD r "fieldsExtracted" (dictGetD r "fields_extracted" PyVal.none)),
     ("fields_extracted", dictGetD r "fields_extracted" (dictGetD r "fieldsExtracted" PyVal.none))]
  let body :=
    if (dictGet body "fieldsExtracted").isNone then dictPop body "fieldsExtracted" else body
  let body :=
    if (dictGet body "fields_extracted").isNone then dictPop body "fields_extracted" else body
  if pyTruthy (dictGet r "success") then
    dictSet body "message" (PyVal.str "Company processed successfully")
  else
    dictSet (dictSet (dictSet (dictSet body
      "error" (dictGetD r "error" (PyVal.str "processing_failed")))
      "errorType" (dictGet r "errorType"))
      "jinaError" (pyOr (dictGet r "jinaError") (dictGet r "jina_error")))
      "rapidapiError" (pyOr (dictGet r "rapidapiError") (dictGet r "rapidapi_error"))

/-- `lambda_handler(event, context)` (`lambda_handler.py:48-113`).
Webpage ids are modelled as strings (`pyStr` of the payload value); a
truthy non-string `operation`/`action` raises `AttributeError` at
`.lower()`, which the handler does not catch, and a processor escape
propagates likewise (the handler has no `try`). -/
def lambdaHandler (lenv : LambdaEnv) (event : PyDict) : Except String PyDict :=
  let payload := extractPayload lenv event
  let action := pyOr (dictGet payload "operation")
    (pyOr (dictGet payload "action") (PyVal.str "process"))
  if pyTruthy (dictGet payload "webpageId") then
    match action with
    | PyVal.str s =>
      if pyLower s = "compare" ∨ pyLower s = "compareapis" ∨ pyLower s = "compare_apis" then
        match lenv.compareApis (pyStr (dictGet payload "webpageId")) with
        | Except.error e => Except.error e
        | Except.ok result =>
          Except.ok
            [("statusCode",
              PyVal.int (if pyTruthy (dictGet result "success") then 200 else 500)),
             ("body", PyVal.dict result)]
      else
        match processWebpage lenv.proc (pyStr (dictGet payload "webpageId")) with
        | (Except.error e, _) => Except.error e
        | (Except.ok result, _) =>
          Except.ok
            [("statusCode",
              PyVal.int (if pyTruthy (dictGet result "success") then 200 else 500)),
             ("body", PyVal.dict (lambdaProcessResponseBody payload result))]
    | _ => Except.error "AttributeError: lower on non-string action"
  else
    Except.ok
      [("statusCode", PyVal.int 400),
       ("body", PyVal.dict
         [("success", PyVal.bool false), ("error", PyVal.str "webpageId required"),
          ("webpageId", dictGet payload "webpageId"),
          ("nodeId", dictGet payload "nodeId"),
          ("userId", dictGet payload "userId")])]

/-- The `statusCode` of a handler response (`None` when the handler
let an exception escape). -/
def respStatusCode (r : Except String PyDict) : PyVal :=
  match r with
  | Except.ok d => dictGet d "statusCode"
  | Except.error _ => PyVal.none

/-- An environment in which the webpage resolves, the primary provider
returns nothing, both backends succeed, and the fallback provider
returns a rich payload. -/
def envRapidSuccess : ProcEnv :=
  { cleanupOnFailure := true
    rapidapiConfigured := true
    now := PyVal.str "T"
    workerId := PyVal.str "W"
    regex := noMatchEnv
    fetchWebpage := fun _ => Except.ok (Option.some [("url", PyVal.str "u")])
    updateWebpage := fun _ _ => Except.ok true
    markWebpageFailed := fun _ _ _ => Except.ok true
    updateNodes := fun _ _ => Except.ok 1
    cleanupFailedWebpage := fun _ => Except.ok true
    jinaFetch := fun _ => Except.ok Option.none
    rapidFetch := fun _ => Except.ok (Option.some
      [("name", PyVal.str "Acme"), ("description", PyVal.str "d"),
       ("website", PyVal.str "w")]) }

/-- An environment in which both providers return nothing and every
backend call succeeds. -/
def envBothProvidersFail : ProcEnv :=
  { envRapidSuccess with rapidFetch := fun _ => Except.ok Option.none }

/-- An environment in which the webpage fetch raises and the backend
mark-failed call raises as well. -/
def envMarkFailedRaises : ProcEnv :=
  { envRapidSuccess with
    fetchWebpage := fun _ => Except.error "connection reset"
    markWebpageFailed := fun _ _ _ => Except.error "mark-failed endpoint down" }

/-- An environment in which the webpage fetch raises but the backend
mark-failed call succeeds. -/
def envFetchRaises : ProcEnv :=
  { envRapidSuccess with fetchWebpage := fun _ => Except.error "connection reset" }

/-- A handler environment over the both-providers-fail processor. -/
def lambdaEnvBothFail : LambdaEnv :=
  { proc := envBothProvidersFail
    jsonLoads := fun _ => Option.none
    compareApis := fun _ => Except.ok [] }

/-- A handler environment over the fallback-success processor. -/
def lambdaEnvSuccess : LambdaEnv :=
  { lambdaEnvBothFail with proc := envRapidSuccess }

/-- A record with nine populated entries, used to exercise
`calculate_data_quality_score` beyond the eight configured key fields. -/
def nineFieldRecord : PyDict :=
  [("a1", PyVal.str "x"), ("a2", PyVal.str "x"), ("a3", PyVal.str "x"),
   ("a4", PyVal.str "x"), ("a5", PyVal.str "x"), ("a6", PyVal.str "x"),
   ("a7", PyVal.str "x"), ("a8", PyVal.str "x"), ("a9", PyVal.str "x")]

/-- A website slot value on which `normalize_company_data` makes no
further change: blank after strip, or already carrying a scheme. -/
def websiteValueStable (v : PyVal) : Prop :=
  pyTruthy v = true →
    pyStrip (pyStr v) = "" ∨ hasHttpScheme (pyStrip (pyStr v)) = true

/-- A company-size slot value that re-normalizes to itself. -/
def sizeValueStable (v : PyVal) : Prop :=
  pyTruthy v = true → PyVal.str (sizeMappingsGet (pyStrip (pyStr v))) = v

/-- A text-field value that re-cleans to itself. -/
def textValueStable (v : PyVal) : Prop :=
  pyTruthy v = true → PyVal.str (collapseWhitespace (pyStrip (pyStr v))) = v

/-! ### General-purpose lemmas -/

/-- Pointwise implication between filters bounds the filtered lengths. -/
theorem length_filter_le_of_imp {α : Type} (l : List α) (p q : α → Bool)
    (h : ∀ a ∈ l, p a = true → q a = true) :
    (l.filter p).length ≤ (l.filter q).length := by
  induction l with
  | nil => simp
  | cons a l ih =>
    have ht : ∀ b ∈ l, p b = true → q b = true := fun b hb => h b (List.mem_cons_of_mem a hb)
    by_cases hp : p a = true
    · have hq : q a = true := h a (List.mem_cons_self a l) hp
      simp [List.filter_cons, hp, hq, Nat.succ_le_succ (ih ht)]
    · by_cases hq : q a = true
      · simp only [List.filter_cons, hp, hq]
        simp only [Bool.false_eq_true, if_false, if_true, List.length_cons]
        exact Nat.le_succ_of_le (ih ht)
      · simp [List.filter_cons, hp, hq, ih ht]

theorem lookup_dictSet_self (d : PyDict) (k : String) (v : PyVal) :
    (dictSet d k v).lookup k = Option.some v := by
  induction d with
  | nil => simp [dictSet]
  | cons kv rest ih =>
    rcases kv with ⟨k0, v0⟩
    by_cases h : k0 = k
    · simp [dictSet, h]
    · simp [dictSet, h, List.lookup_cons, beq_eq_decide, Ne.symm h, ih]

theorem lookup_dictSet_ne (d : PyDict) (k : String) (v : PyVal) (k' : String)
    (h : k' ≠ k) : (dictSet d k v).lookup k' = d.lookup k' := by
  induction d with
  | nil => simp [dictSet, List.lookup_cons, beq_eq_decide, h]
  | cons kv rest ih =>
    rcases kv with ⟨k0, v0⟩
    by_cases hk : k0 = k
    · subst hk
      simp [dictSet, List.lookup_cons, beq_eq_decide, h]
    · simp [dictSet, hk, List.lookup_cons, beq_eq_decide, ih]

theorem dictSet_lookup_same (d : PyDict) (k : String) (v : PyVal)
    (h : d.lookup k = Option.some v) : dictSet d k v = d := by
  induction d with
  | nil => simp at h
  | cons kv rest ih =>
    rcases kv with ⟨k0, v0⟩
    by_cases hk : k0 = k
    · subst hk
      simp only [List.lookup_cons, beq_self_eq_true, Option.some.injEq] at h
      simp [dictSet, h]
    · simp only [List.lookup_cons, beq_eq_decide, Ne.symm hk, decide_eq_true_eq, if_neg] at h
      simp only [dictSet, hk, if_neg, ite_false]
      rw [ih h]

/-! ### String lemmas: strip and whitespace collapsing -/

theorem pyStripList_eq_rdropWhile (l : List Char) :
    pyStripList l = (l.dropWhile isPySpace).rdropWhile isPySpace := rfl

theorem head_of_prefix_ne_nil {α : Type} {x m : List α} (h : x <+: m) (hx : x ≠ []) :
    x.head? = m.head? := by
  obtain ⟨t, rfl⟩ := h
  cases x with
  | nil => exact absurd rfl hx
  | cons a as => simp

theorem pyStripList_head_not_space (l : List Char) :
    ∀ c, (pyStripList l).head? = Option.some c → isPySpace c = false := by
  intro c hc
  rw [pyStripList_eq_rdropWhile] at hc
  have hpre : (l.dropWhile isPySpace).rdropWhile isPySpace <+: l.dropWhile isPySpace :=
    List.rdropWhile_prefix _ _
  have hne : (l.dropWhile isPySpace).rdropWhile isPySpace ≠ [] := by
    intro h0; rw [h0] at hc; simp at hc
  have := head_of_prefix_ne_nil hpre hne
  rw [this] at hc
  have h2 := List.head?_dropWhile_not isPySpace l
  rw [hc] at h2
  exact h2

theorem pyStripList_getLast_not_space (l : List Char) :
    ∀ c, (pyStripList l).getLast? = Option.some c → isPySpace c = false := by
  intro c hc
  rw [pyStripList_eq_rdropWhile] at hc
  have hne : (l.dropWhile isPySpace).rdropWhile isPySpace ≠ [] := by
    intro h0; rw [h0] at hc; simp at hc
  have h2 := List.rdropWhile_last_not isPySpace (l.dropWhile isPySpace) hne
  rw [List.getLast?_eq_getLast _ hne] at hc
  simp only [Option.some.injEq] at hc
  rw [hc] at h2
  simpa using h2

theorem pyStripList_eq_self (m : List Char)
    (h1 : ∀ c, m.head? = Option.some c → isPySpace c = false)
    (h2 : ∀ c, m.getLast? = Option.some c → isPySpace c = false) :
    pyStripList m = m := by
  rw [pyStripList_eq_rdropWhile]
  have hd : m.dropWhile isPySpace = m := by
    cases m with
    | nil => simp
    | cons a as =>
      have := h1 a (by simp)
      simp [List.dropWhile_cons, this]
  rw [hd, List.rdropWhile_eq_self_iff.mpr]
  intro hl
  have := h2 (m.getLast hl) (by rw [List.getLast?_eq_getLast _ hl])
  simp [this]

theorem pyStripList_idem (l : List Char) :
    pyStripList (pyStripList l) = pyStripList l :=
  pyStripList_eq_self _ (pyStripList_head_not_space l) (pyStripList_getLast_not_space l)

theorem collapseAux_cons_space_true {a : Char} (l : List Char) (ha : isPySpace a = true) :
    collapseAux true (a :: l) = collapseAux true l := by
  simp [collapseAux, ha]

theorem collapseAux_cons_space_false {a : Char} (l : List Char) (ha : isPySpace a = true) :
    collapseAux false (a :: l) = ' ' :: collapseAux true l := by
  simp [collapseAux, ha]

theorem collapseAux_cons_nonspace {a : Char} (l : List Char) (ha : isPySpace a = false)
    (b : Bool) : collapseAux b (a :: l) = a :: collapseAux false l := by
  cases b <;> simp [collapseAux, ha]

theorem collapseAux_idem (l : List Char) :
    ∀ b, collapseAux b (collapseAux b l) = collapseAux b l := by
  induction l with
  | nil => intro b; rfl
  | cons c cs ih =>
    intro b
    by_cases hc : isPySpace c = true
    · cases b with
      | true => rw [collapseAux_cons_space_true cs hc, ih true]
      | false =>
        rw [collapseAux_cons_space_false cs hc,
          collapseAux_cons_space_false (collapseAux true cs) (by decide), ih true]
    · rw [Bool.not_eq_true] at hc
      rw [collapseAux_cons_nonspace cs hc b, collapseAux_cons_nonspace _ hc b, ih false]

theorem collapseAux_ne_nil (l : List Char) (hc : ∃ c ∈ l, isPySpace c = false) :
    ∀ b, collapseAux b l ≠ [] := by
  induction l with
  | nil => rcases hc with ⟨c, hm, _⟩; simp at hm
  | cons a as ih =>
    intro b
    by_cases ha : isPySpace a = true
    · have hex : ∃ c ∈ as, isPySpace c = false := by
        rcases hc with ⟨c, hm, hns⟩
        rcases List.mem_cons.mp hm with rfl | hm'
        · rw [ha] at hns; cases hns
        · exact ⟨c, hm', hns⟩
      cases b with
      | true => rw [collapseAux_cons_space_true as ha]; exact ih hex true
      | false => rw [collapseAux_cons_space_false as ha]; simp
    · rw [Bool.not_eq_true] at ha
      rw [collapseAux_cons_nonspace as ha b]; simp

theorem collapseAux_getLast (l : List Char) :
    ∀ b c, l.getLast? = Option.some c → isPySpace c = false →
      (collapseAux b l).getLast? = Option.some c := by
  induction l with
  | nil => intro b c hc; simp at hc
  | cons a as ih =>
    intro b c hc hns
    cases as with
    | nil =>
      simp only [List.getLast?_singleton, Option.some.injEq] at hc
      subst hc
      cases b <;> simp [collapseAux, hns]
    | cons a2 as2 =>
      have htail : (a2 :: as2).getLast? = Option.some c := by
        rw [← hc]; rw [List.getLast?_cons_cons]
      have hex : ∃ x ∈ a2 :: as2, isPySpace x = false := by
        have hne : (a2 :: as2) ≠ [] := by simp
        rw [List.getLast?_eq_getLast _ hne] at htail
        simp only [Option.some.injEq] at htail
        exact ⟨c, htail ▸ List.getLast_mem hne, hns⟩
      by_cases ha : isPySpace a = true
      · cases b with
        | true => rw [collapseAux_cons_space_true _ ha]; exact ih true c htail hns
        | false =>
          rw [collapseAux_cons_space_false _ ha, List.getLast?_cons, ih true c htail hns]
          rfl
      · rw [Bool.not_eq_true] at ha
        rw [collapseAux_cons_nonspace _ ha b, List.getLast?_cons, ih false c htail hns]
        rfl

theorem cleanList_head_not_space (l : List Char) :
    ∀ c, (cleanList l).head? = Option.some c → isPySpace c = false := by
  intro c hc
  unfold cleanList at hc
  cases hm : pyStripList l with
  | nil => rw [hm] at hc; simp [collapseAux] at hc
  | cons a as =>
    have ha : isPySpace a = false := pyStripList_head_not_space l a (by rw [hm]; rfl)
    rw [hm, collapseAux_cons_nonspace as ha false] at hc
    simp only [List.head?_cons, Option.some.injEq] at hc
    rw [← hc]; exact ha

theorem cleanList_getLast_not_space (l : List Char) :
    ∀ c, (cleanList l).getLast? = Option.some c → isPySpace c = false := by
  intro c hc
  unfold cleanList at hc
  cases hm : pyStripList l with
  | nil => rw [hm] at hc; simp [collapseAux] at hc
  | cons a as =>
    have hne : (a :: as) ≠ [] := by simp
    have hlast := List.getLast?_eq_getLast (a :: as) hne
    have hns : isPySpace ((a :: as).getLast hne) = false :=
      pyStripList_getLast_not_space l _ (by rw [hm]; exact hlast)
    have := collapseAux_getLast (a :: as) false ((a :: as).getLast hne) hlast hns
    rw [hm, this] at hc
    simp only [Option.some.injEq] at hc
    rw [← hc]; exact hns

theorem cleanList_strip (l : List Char) : pyStripList (cleanList l) = cleanList l :=
  pyStripList_eq_self _ (cleanList_head_not_space l) (cleanList_getLast_not_space l)

theorem cleanList_idem (l : List Char) : cleanList (cleanList l) = cleanList l := by
  show collapseAux false (pyStripList (cleanList l)) = cleanList l
  rw [cleanList_strip l]
  show collapseAux false (collapseAux false (pyStripList l)) = cleanList l
  rw [collapseAux_idem (pyStripList l) false]
  rfl

theorem pyStrip_asString (l : List Char) :
    pyStrip l.asString = (pyStripList l).asString := by
  unfold pyStrip
  rw [List.toList_asString]

theorem collapseWhitespace_pyStrip (s : String) :
    collapseWhitespace (pyStrip s) = (cleanList s.toList).asString := by
  unfold pyStrip collapseWhitespace
  rw [List.toList_asString]
  rfl

theorem cleanString_idem (s : String) :
    collapseWhitespace (pyStrip (collapseWhitespace (pyStrip s))) =
      collapseWhitespace (pyStrip s) := by
  rw [collapseWhitespace_pyStrip s, collapseWhitespace_pyStrip, List.toList_asString,
    cleanList_idem]

theorem toList_append (s t : String) : (s ++ t).toList = s.toList ++ t.toList := rfl

theorem pyStrip_https_append (t : String) :
    pyStrip ("https://" ++ (pyStripList t.toList).asString) =
      "https://" ++ (pyStripList t.toList).asString := by
  unfold pyStrip
  rw [toList_append, List.toList_asString]
  have hfix : pyStripList ("https://".toList ++ pyStripList t.toList) =
      "https://".toList ++ pyStripList t.toList := by
    apply pyStripList_eq_self
    · intro c hc
      have : ("https://".toList ++ pyStripList t.toList).head? = Option.some 'h' := rfl
      rw [this] at hc
      simp only [Option.some.injEq] at hc
      rw [← hc]; decide
    · intro c hc
      rw [List.getLast?_append] at hc
      cases hm : (pyStripList t.toList).getLast? with
      | some c0 =>
        rw [hm] at hc
        simp only [Option.or_some, Option.some.injEq] at hc
        rw [← hc]
        exact pyStripList_getLast_not_space _ _ hm
      | none =>
        rw [hm] at hc
        have h7 : ("https://".toList).getLast? = Option.some '/' := rfl
        rw [h7] at hc
        simp only [Option.none_or, Option.some.injEq] at hc
        rw [← hc]; decide
  rw [hfix]
  rfl

theorem hasHttpScheme_https_append (t : String) :
    hasHttpScheme ("https://" ++ t) = true := by
  unfold hasHttpScheme pyStartsWith
  rw [toList_append]
  have : ("https://".toList).isPrefixOf ("https://".toList ++ t.toList) = true := by
    rw [List.isPrefixOf_iff_prefix]
    exact List.prefix_append _ _
  rw [this]
  simp

theorem pyStrip_idem (s : String) : pyStrip (pyStrip s) = pyStrip s := by
  unfold pyStrip
  rw [List.toList_asString, pyStripList_idem]

theorem lookup_normalizeWebsiteStep_ne (d : PyDict) (k : String) (h : k ≠ "website") :
    (normalizeWebsiteStep d).lookup k = d.lookup k := by
  unfold normalizeWebsiteStep
  split_ifs with h1 h2
  · exact lookup_dictSet_ne _ _ _ _ h
  · rfl
  · rfl

theorem lookup_normalizeSizeStep_ne (d : PyDict) (k : String) (h : k ≠ "company_size") :
    (normalizeSizeStep d).lookup k = d.lookup k := by
  unfold normalizeSizeStep
  split_ifs with h1
  · exact lookup_dictSet_ne _ _ _ _ h
  · rfl

theorem lookup_normalizeTextStep_ne (d : PyDict) (f k : String) (h : k ≠ f) :
    (normalizeTextStep d f).lookup k = d.lookup k := by
  unfold normalizeTextStep
  split_ifs with h1
  · exact lookup_dictSet_ne _ _ _ _ h
  · rfl

theorem lookup_foldl_textSteps_ne (fs : List String) (d : PyDict) (k : String)
    (h : ∀ f ∈ fs, k ≠ f) :
    (fs.foldl normalizeTextStep d).lookup k = d.lookup k := by
  induction fs generalizing d with
  | nil => rfl
  | cons f fs ih =>
    rw [List.foldl_cons, ih _ (fun g hg => h g (List.mem_cons_of_mem f hg)),
      lookup_normalizeTextStep_ne d f k (h f (List.mem_cons_self f fs))]

theorem normalizeWebsiteStep_eq_self (d : PyDict)
    (h : ∀ v, d.lookup "website" = Option.some v → websiteValueStable v) :
    normalizeWebsiteStep d = d := by
  unfold normalizeWebsiteStep
  split_ifs with h1 h2
  · exfalso
    rcases Bool.and_eq_true_iff.mp h1 with ⟨hk, ht⟩
    unfold dictHasKey at hk
    rcases Option.isSome_iff_exists.mp hk with ⟨v, hv⟩
    have hg : dictGet d "website" = v := by unfold dictGet; rw [hv]
    rw [hg] at h2 ht
    simp only [Bool.and_eq_true, decide_eq_true_eq, Bool.not_eq_true'] at h2
    rcases h v hv ht with hempty | hscheme
    · exact h2.1 hempty
    · rw [h2.2] at hscheme; cases hscheme
  · rfl
  · rfl

theorem normalizeWebsiteStep_output_stable (d : PyDict) :
    ∀ v, (normalizeWebsiteStep d).lookup "website" = Option.some v →
      websiteValueStable v := by
  intro v hv
  unfold normalizeWebsiteStep at hv
  split_ifs at hv with h1 h2
  · rw [lookup_dictSet_self] at hv
    simp only [Option.some.injEq] at hv
    intro _ht
    right
    rw [← hv]
    show hasHttpScheme
      (pyStrip ("https://" ++ pyStrip (pyStr (dictGet d "website")))) = true
    rw [show pyStrip (pyStr (dictGet d "website")) =
        (pyStripList (pyStr (dictGet d "website")).toList).asString from rfl,
      pyStrip_https_append]
    exact hasHttpScheme_https_append _
  · intro ht
    have hg : dictGet d "website" = v := by unfold dictGet; rw [hv]
    rw [hg] at h2
    simp only [Bool.and_eq_true, decide_eq_true_eq, Bool.not_eq_true', not_and] at h2
    by_cases hemp : pyStrip (pyStr v) = ""
    · exact Or.inl hemp
    · right
      have := h2 hemp
      simp only [Bool.not_eq_false] at this
      exact this
  · intro ht
    exfalso
    have hk : dictHasKey d "website" = true := by
      unfold dictHasKey; rw [hv]; rfl
    have hg : dictGet d "website" = v := by unfold dictGet; rw [hv]
    rw [Bool.and_eq_true] at h1
    exact h1 ⟨hk, by rw [hg]; exact ht⟩

theorem sizeMappingsGet_fix (m : String) (hm : pyStrip m = m) :
    sizeMappingsGet (pyStrip (sizeMappingsGet m)) = sizeMappingsGet m := by
  by_cases h1 : m = "1-10"
  · subst h1; decide
  by_cases h2 : m = "11-50"
  · subst h2; decide
  by_cases h3 : m = "51-200"
  · subst h3; decide
  by_cases h4 : m = "201-500"
  · subst h4; decide
  by_cases h5 : m = "501-1000"
  · subst h5; decide
  by_cases h6 : m = "1001-5000"
  · subst h6; decide
  by_cases h7 : m = "5001-10000"
  · subst h7; decide
  by_cases h8 : m = "10000+"
  · subst h8; decide
  have hl : sizeMappings.lookup m = Option.none := by
    simp [sizeMappings, List.lookup_cons, beq_eq_decide, h1, h2, h3, h4, h5, h6, h7, h8]
  have hg : sizeMappingsGet m = m := by unfold sizeMappingsGet; rw [hl]
  rw [hg, hm, hg]

theorem normalizeSizeStep_eq_self (d : PyDict)
    (h : ∀ v, d.lookup "company_size" = Option.some v → sizeValueStable v) :
    normalizeSizeStep d = d := by
  unfold normalizeSizeStep
  split_ifs with h1
  · rcases Bool.and_eq_true_iff.mp h1 with ⟨hk, ht⟩
    unfold dictHasKey at hk
    rcases Option.isSome_iff_exists.mp hk with ⟨v, hv⟩
    have hg : dictGet d "company_size" = v := by unfold dictGet; rw [hv]
    rw [hg] at ht ⊢
    rw [h v hv ht]
    exact dictSet_lookup_same d _ v hv
  · rfl

theorem normalizeSizeStep_output_stable (d : PyDict) :
    ∀ v, (normalizeSizeStep d).lookup "company_size" = Option.some v →
      sizeValueStable v := by
  intro v hv
  unfold normalizeSizeStep at hv
  split_ifs at hv with h1
  · rw [lookup_dictSet_self] at hv
    simp only [Option.some.injEq] at hv
    intro _ht
    rw [← hv]
    show PyVal.str (sizeMappingsGet
        (pyStrip (sizeMappingsGet (pyStrip (pyStr (dictGet d "company_size")))))) = _
    rw [sizeMappingsGet_fix _ (pyStrip_idem _)]
  · intro ht
    exfalso
    have hk : dictHasKey d "company_size" = true := by
      unfold dictHasKey; rw [hv]; rfl
    have hg : dictGet d "company_size" = v := by unfold dictGet; rw [hv]
    rw [Bool.and_eq_true] at h1
    exact h1 ⟨hk, by rw [hg]; exact ht⟩

theorem normalizeTextStep_eq_self (d : PyDict) (f : String)
    (h : ∀ v, d.lookup f = Option.some v → textValueStable v) :
    normalizeTextStep d f = d := by
  unfold normalizeTextStep
  split_ifs with h1
  · rcases Bool.and_eq_true_iff.mp h1 with ⟨hk, ht⟩
    unfold dictHasKey at hk
    rcases Option.isSome_iff_exists.mp hk with ⟨v, hv⟩
    have hg : dictGet d f = v := by unfold dictGet; rw [hv]
    rw [hg] at ht ⊢
    rw [h v hv ht]
    exact dictSet_lookup_same d _ v hv
  · rfl

theorem normalizeTextStep_output_stable (d : PyDict) (f : String) :
    ∀ v, (normalizeTextStep d f).lookup f = Option.some v → textValueStable v := by
  intro v hv
  unfold normalizeTextStep at hv
  split_ifs at hv with h1
  · rw [lookup_dictSet_self] at hv
    simp only [Option.some.injEq] at hv
    intro _ht
    rw [← hv]
    show PyVal.str (collapseWhitespace (pyStrip
        (collapseWhitespace (pyStrip (pyStr (dictGet d f)))))) = _
    rw [cleanString_idem]
  · intro ht
    exfalso
    have hk : dictHasKey d f = true := by
      unfold dictHasKey; rw [hv]; rfl
    have hg : dictGet d f = v := by unfold dictGet; rw [hv]
    rw [Bool.and_eq_true] at h1
    exact h1 ⟨hk, by rw [hg]; exact ht⟩

theorem foldl_textSteps_eq_self (fs : List String) (d : PyDict)
    (h : ∀ f ∈ fs, ∀ v, d.lookup f = Option.some v → textValueStable v) :
    fs.foldl normalizeTextStep d = d := by
  induction fs with
  | nil => rfl
  | cons f fs ih =>
    rw [List.foldl_cons, normalizeTextStep_eq_self d f (h f (List.mem_cons_self f fs))]
    exact ih (fun g hg => h g (List.mem_cons_of_mem f hg))

theorem foldl_textSteps_output_stable (d : PyDict) :
    ∀ f ∈ normalizeTextFields, ∀ v,
      (normalizeTextFields.foldl normalizeTextStep d).lookup f = Option.some v →
        textValueStable v := by
  intro f hf
  fin_cases hf <;>
    simp only [normalizeTextFields, List.foldl_cons, List.foldl_nil]
  · intro v hv
    rw [lookup_normalizeTextStep_ne _ _ _ (by decide),
      lookup_normalizeTextStep_ne _ _ _ (by decide),
      lookup_normalizeTextStep_ne _ _ _ (by decide),
      lookup_normalizeTextStep_ne _ _ _ (by decide)] at hv
    exact normalizeTextStep_output_stable d "name" v hv
  · intro v hv
    rw [lookup_normalizeTextStep_ne _ _ _ (by decide),
      lookup_normalizeTextStep_ne _ _ _ (by decide),
      lookup_normalizeTextStep_ne _ _ _ (by decide)] at hv
    exact normalizeTextStep_output_stable _ "about" v hv
  · intro v hv
    rw [lookup_normalizeTextStep_ne _ _ _ (by decide),
      lookup_normalizeTextStep_ne _ _ _ (by decide)] at hv
    exact normalizeTextStep_output_stable _ "headline" v hv
  · intro v hv
    rw [lookup_normalizeTextStep_ne _ _ _ (by decide)] at hv
    exact normalizeTextStep_output_stable _ "headquarters" v hv
  · intro v hv
    exact normalizeTextStep_output_stable _ "industry" v hv

/-! ### Claim C6 -/

/-- C6: `normalize_company_data` is idempotent: normalizing an
already-normalized record changes nothing, for every record. -/
theorem C6_normalizeCompanyData_idempotent (d : PyDict) :
    normalizeCompanyData (normalizeCompanyData d) = normalizeCompanyData d := by
  have e1 : (normalizeCompanyData d).lookup "website" =
      (normalizeWebsiteStep d).lookup "website" := by
    unfold normalizeCompanyData
    rw [lookup_foldl_textSteps_ne _ _ _ (by decide),
      lookup_normalizeSizeStep_ne _ _ (by decide)]
  have e2 : (normalizeCompanyData d).lookup "company_size" =
      (normalizeSizeStep (normalizeWebsiteStep d)).lookup "company_size" := by
    unfold normalizeCompanyData
    rw [lookup_foldl_textSteps_ne _ _ _ (by decide)]
  have hW : normalizeWebsiteStep (normalizeCompanyData d) = normalizeCompanyData d := by
    apply normalizeWebsiteStep_eq_self
    intro v hv
    rw [e1] at hv
    exact normalizeWebsiteStep_output_stable d v hv
  have hS : normalizeSizeStep (normalizeCompanyData d) = normalizeCompanyData d := by
    apply normalizeSizeStep_eq_self
    intro v hv
    rw [e2] at hv
    exact normalizeSizeStep_output_stable _ v hv
  show normalizeTextFields.foldl normalizeTextStep
    (normalizeSizeStep (normalizeWebsiteStep (normalizeCompanyData d))) =
      normalizeCompanyData d
  rw [hW, hS]
  exact foldl_textSteps_eq_self _ _
    (foldl_textSteps_output_stable (normalizeSizeStep (normalizeWebsiteStep d)))

theorem mem_dictSet_cases {kv : String × PyVal} {d : PyDict} {k : String} {v : PyVal}
    (h : kv ∈ dictSet d k v) : kv = (k, v) ∨ kv ∈ d := by
  induction d with
  | nil => simpa [dictSet] using h
  | cons kv0 rest ih =>
    rcases kv0 with ⟨k0, v0⟩
    by_cases hk : k0 = k
    · subst hk
      simp only [dictSet, if_pos rfl] at h
      rcases List.mem_cons.mp h with h | h
      · exact Or.inl h
      · exact Or.inr (List.mem_cons_of_mem _ h)
    · simp only [dictSet, if_neg hk] at h
      rcases List.mem_cons.mp h with h | h
      · exact Or.inr (h ▸ List.mem_cons_self _ _)
      · rcases ih h with h | h
        · exact Or.inl h
        · exact Or.inr (List.mem_cons_of_mem _ h)

theorem noNone_dictSet {d : PyDict} {k : String} {v : PyVal}
    (hd : ∀ kv ∈ d, kv.2.isNone = false) (hv : v.isNone = false) :
    ∀ kv ∈ dictSet d k v, kv.2.isNone = false := by
  intro kv hkv
  rcases mem_dictSet_cases hkv with rfl | hm
  · exact hv
  · exact hd kv hm

theorem pyTruthy_isNone_false {v : PyVal} (h : pyTruthy v = true) : v.isNone = false := by
  cases v <;> first | rfl | (exfalso; simp [pyTruthy] at h)

theorem noNone_websiteStep (d : PyDict) (hd : ∀ kv ∈ d, kv.2.isNone = false) :
    ∀ kv ∈ normalizeWebsiteStep d, kv.2.isNone = false := by
  unfold normalizeWebsiteStep
  split_ifs with h1 h2
  · exact noNone_dictSet hd rfl
  · exact hd
  · exact hd

theorem noNone_sizeStep (d : PyDict) (hd : ∀ kv ∈ d, kv.2.isNone = false) :
    ∀ kv ∈ normalizeSizeStep d, kv.2.isNone = false := by
  unfold normalizeSizeStep
  split_ifs with h1
  · exact noNone_dictSet hd rfl
  · exact hd

theorem noNone_textStep (d : PyDict) (f : String) (hd : ∀ kv ∈ d, kv.2.isNone = false) :
    ∀ kv ∈ normalizeTextStep d f, kv.2.isNone = false := by
  unfold normalizeTextStep
  split_ifs with h1
  · exact noNone_dictSet hd rfl
  · exact hd

theorem noNone_foldl_textSteps (fs : List String) (d : PyDict)
    (hd : ∀ kv ∈ d, kv.2.isNone = false) :
    ∀ kv ∈ fs.foldl normalizeTextStep d, kv.2.isNone = false := by
  induction fs generalizing d with
  | nil => exact hd
  | cons f fs ih => exact ih _ (noNone_textStep d f hd)

theorem noNone_normalize (d : PyDict) (hd : ∀ kv ∈ d, kv.2.isNone = false) :
    ∀ kv ∈ normalizeCompanyData d, kv.2.isNone = false :=
  noNone_foldl_textSteps _ _ (noNone_sizeStep _ (noNone_websiteStep _ hd))

theorem noNone_jinaCopy (jd : PyDict) (fs : List String) (p : PyDict)
    (hp : ∀ kv ∈ p, kv.2.isNone = false) :
    ∀ kv ∈ fs.foldl
        (fun p f =>
          if dictHasKey jd f && pyTruthy (dictGet jd f) then dictSet p f (dictGet jd f)
          else p) p,
      kv.2.isNone = false := by
  induction fs generalizing p with
  | nil => exact hp
  | cons f fs ih =>
    rw [List.foldl_cons]
    apply ih
    by_cases hc : (dictHasKey jd f && pyTruthy (dictGet jd f)) = true
    · rw [if_pos hc]
      exact noNone_dictSet hp (pyTruthy_isNone_false (Bool.and_eq_true_iff.mp hc).2)
    · rw [if_neg hc]
      exact hp

/-! ### Claim C4 -/

/-- C4 counterexample: the claim asserts every included key of the
normalizer output has a non-empty value, but
`map_rapidapi_to_standard({"name": ""})` keeps `name` with the empty
string (the final comprehension only drops `None` values, and `""` is
not `None`). -/
theorem C4_rapidapi_keeps_empty_string :
    (mapRapidapiToStandard [("name", PyVal.str "")]).lookup "name" =
      Option.some (PyVal.str "") ∧ pyTruthy (PyVal.str "") = false := by
  constructor
  · rfl
  · decide

/-- C4 (amended): for every secondary-provider payload and every
primary-provider extraction, the two normalizer outputs contain no key
whose value is `None` (the `None`-dropping comprehension and the
truthiness allow-list guarantee this); empty-string and other falsy
non-`None` values can however survive. -/
theorem C4_mappers_never_emit_none (rd jd : PyDict) :
    (mapRapidapiToStandard rd).all (fun kv => !kv.2.isNone) = true ∧
      (mapJinaToStandard jd).all (fun kv => !kv.2.isNone) = true := by
  constructor
  · rw [List.all_eq_true]
    intro kv hkv
    unfold mapRapidapiToStandard at hkv
    simpa using List.of_mem_filter hkv
  · rw [List.all_eq_true]
    intro kv hkv
    simp only [Bool.not_eq_true']
    exact noNone_normalize _ (noNone_jinaCopy jd jinaStandardFields [] (by intro kv h; cases h))
      kv hkv

/-! ### Claim C9 -/

/-- C9 counterexample: the claim asserts all four sub-scores lie on a
0-100 scale, but `field_score` divides the populated-entry count of the
whole record by the fixed key-field count (8), so a record with nine
populated entries scores 112.5. -/
theorem C9_field_score_exceeds_100 :
    (calculateDataQualityScore nineFieldRecord 0).field_score > 100 := by
  have h9 : countPopulatedEntries nineFieldRecord = 9 := by decide
  have hne : nineFieldRecord.isEmpty = false := by decide
  have hfs : fieldScore nineFieldRecord = 225 / 2 := by
    rw [fieldScore, if_pos (by decide), h9]
    norm_num [requiredFieldsForValidation]
  have hmul : (225 / 2 : ℚ) * 10 = ((1125 : Int) : ℚ) := by norm_num
  have hround : pyRound1 (225 / 2 : ℚ) = 225 / 2 := by
    rw [pyRound1, roundHalfEven, hmul, Int.floor_intCast]
    norm_num
  rw [calculateDataQualityScore, if_neg (by rw [hne]; exact Bool.false_ne_true)]
  show pyRound1 (fieldScore nineFieldRecord) > 100
  rw [hfs, hround]
  norm_num

/-- C9 (amended): for every record and nonnegative processing time, the
critical-field, completeness and speed sub-scores lie on the 0-100
scale and the speed sub-score equals `max(0, 100 - time*10)` (100 when
no timing is given); the field-coverage sub-score is only bounded below
by 0 and exceeds 100 whenever the record has more than eight populated
entries. -/
theorem C9_subscore_bounds (d : PyDict) (t : ℚ) (ht : 0 ≤ t) :
    0 ≤ fieldScore d ∧
      (0 ≤ criticalScore d ∧ criticalScore d ≤ 100) ∧
      (0 ≤ completenessScore d ∧ completenessScore d ≤ 100) ∧
      speedScore t = max 0 (100 - t * 10) ∧
      0 ≤ speedScore t ∧ speedScore t ≤ 100 := by
  have hspeed : speedScore t = max 0 (100 - t * 10) := by
    rw [speedScore]
    by_cases hpos : 0 < t
    · rw [if_pos hpos]
    · rw [if_neg hpos]
      have ht0 : t = 0 := le_antisymm (not_lt.mp hpos) ht
      rw [ht0]
      norm_num
  refine ⟨?_, ⟨?_, ?_⟩, ⟨?_, ?_⟩, hspeed, ?_, ?_⟩
  · rw [fieldScore, if_pos (by decide)]
    positivity
  · rw [criticalScore, if_pos (by decide)]
    positivity
  · rw [criticalScore, if_pos (by decide)]
    have hc : (countCriticalPopulated d : ℚ) ≤ 4 := by
      have := List.length_filter_le (fun f => fieldPopulated d f) criticalFieldsQuality
      have h4 : criticalFieldsQuality.length = 4 := by decide
      rw [h4] at this
      exact_mod_cast this
    have hlen : (criticalFieldsQuality.length : ℚ) = 4 := by norm_num [criticalFieldsQuality]
    rw [hlen]
    nlinarith
  · rw [completenessScore, if_pos (by decide)]
    apply le_min (by norm_num)
    positivity
  · rw [completenessScore, if_pos (by decide)]
    exact min_le_left _ _
  · rw [hspeed]
    exact le_max_left _ _
  · rw [hspeed]
    apply max_le (by norm_num)
    nlinarith

/-- C9 witness: the bounds at a one-field record and a 2-second
processing time. -/
theorem C9_subscore_bounds_witness :
    (0 : ℚ) ≤ 2 ∧
      (0 ≤ fieldScore [("name", PyVal.str "x")] ∧
        (0 ≤ criticalScore [("name", PyVal.str "x")] ∧
          criticalScore [("name", PyVal.str "x")] ≤ 100) ∧
        (0 ≤ completenessScore [("name", PyVal.str "x")] ∧
          completenessScore [("name", PyVal.str "x")] ≤ 100) ∧
        speedScore 2 = max 0 (100 - 2 * 10) ∧
        0 ≤ speedScore 2 ∧ speedScore 2 ≤ 100) :=
  ⟨by norm_num, C9_subscore_bounds [("name", PyVal.str "x")] 2 (by norm_num)⟩

theorem lookup_filter_of_lookup (l : PyDict) (p : String × PyVal → Bool) (k : String)
    (v : PyVal) (hl : l.lookup k = Option.some v) (hp : p (k, v) = true) :
    (l.filter p).lookup k = Option.some v := by
  induction l with
  | nil => simp at hl
  | cons kv rest ih =>
    rcases kv with ⟨k0, v0⟩
    by_cases hk : k = k0
    · subst hk
      simp only [List.lookup_cons, beq_self_eq_true, Option.some.injEq] at hl
      subst hl
      rw [List.filter_cons, if_pos hp]
      simp [List.lookup_cons]
    · simp only [List.lookup_cons, beq_eq_decide, hk, decide_eq_false_iff_not] at hl
      rw [List.filter_cons]
      by_cases hkeep : p (k0, v0) = true
      · rw [if_pos hkeep]
        simp only [List.lookup_cons, beq_eq_decide, hk, decide_eq_false_iff_not]
        exact ih hl
      · rw [if_neg hkeep]
        exact ih hl

theorem lookup_filter_none_of_none (l : PyDict) (p : String × PyVal → Bool) (k : String)
    (hl : l.lookup k = Option.none) : (l.filter p).lookup k = Option.none := by
  induction l with
  | nil => rfl
  | cons kv rest ih =>
    rcases kv with ⟨k0, v0⟩
    by_cases hk : k = k0
    · subst hk
      simp [List.lookup_cons] at hl
    · simp only [List.lookup_cons, beq_eq_decide, hk, decide_eq_false_iff_not] at hl
      rw [List.filter_cons]
      by_cases hkeep : p (k0, v0) = true
      · rw [if_pos hkeep]
        simp only [List.lookup_cons, beq_eq_decide, hk, decide_eq_false_iff_not]
        exact ih hl
      · rw [if_neg hkeep]
        exact ih hl

theorem lookup_map_override (a b : PyDict) (k : String) (hb : b.lookup k = Option.none) :
    (a.map (fun kv =>
      (kv.1, match b.lookup kv.1 with
             | Option.some v => v
             | Option.none => kv.2))).lookup k = a.lookup k := by
  induction a with
  | nil => rfl
  | cons kv rest ih =>
    rcases kv with ⟨k0, v0⟩
    by_cases hk : k = k0
    · subst hk
      simp [List.lookup_cons, hb]
    · simp only [List.map_cons, List.lookup_cons, beq_eq_decide, hk, decide_eq_false_iff_not]
      exact ih

theorem lookup_pyDictMerge_not_in_b (a b : PyDict) (k : String)
    (hb : b.lookup k = Option.none) : (pyDictMerge a b).lookup k = a.lookup k := by
  unfold pyDictMerge
  rw [List.lookup_append, lookup_map_override a b k hb]
  cases ha : a.lookup k with
  | some v => rfl
  | none =>
    rw [lookup_filter_none_of_none b _ k hb]
    rfl

theorem lookup_processingMetadataDict_required (now workerId : PyVal) (method f : String)
    (hf : f ∈ requiredFieldsForValidation) :
    (processingMetadataDict now workerId method).lookup f = Option.none := by
  fin_cases hf <;> (unfold processingMetadataDict; split_ifs <;> rfl)

theorem requiredField_ne_url (f : String) (hf : f ∈ requiredFieldsForValidation) :
    f ≠ "url" := by
  fin_cases hf <;> decide

theorem lookup_addProcessingMetadata (now workerId : PyVal) (d : PyDict) (method : String)
    (u : PyVal) (f : String) (hf : f ∈ requiredFieldsForValidation) (v : PyVal)
    (hv : d.lookup f = Option.some v) (hvn : v.isNone = false) :
    (addProcessingMetadata now workerId d method u).lookup f = Option.some v := by
  unfold addProcessingMetadata
  have h1 : (pyDictMerge d (processingMetadataDict now workerId method)).lookup f =
      Option.some v := by
    rw [lookup_pyDictMerge_not_in_b _ _ _
      (lookup_processingMetadataDict_required now workerId method f hf), hv]
  have h2 :
      (if pyTruthy u then
        dictSet (pyDictMerge d (processingMetadataDict now workerId method)) "url" u
       else pyDictMerge d (processingMetadataDict now workerId method)).lookup f =
      Option.some v := by
    split_ifs with ht
    · rw [lookup_dictSet_ne _ _ _ _ (requiredField_ne_url f hf)]
      exact h1
    · exact h1
  exact lookup_filter_of_lookup _ _ f v h2 (by simp [hvn])

theorem fieldPopulated_addProcessingMetadata (now workerId : PyVal) (d : PyDict)
    (method : String) (u : PyVal) (f : String) (hf : f ∈ requiredFieldsForValidation)
    (hp : fieldPopulated d f = true) :
    fieldPopulated (addProcessingMetadata now workerId d method u) f = true := by
  rcases Bool.and_eq_true_iff.mp hp with ⟨ht, hs⟩
  cases hl : d.lookup f with
  | none =>
    exfalso
    unfold dictGet at ht
    rw [hl] at ht
    simp [pyTruthy] at ht
  | some v =>
    have hg : dictGet d f = v := by unfold dictGet; rw [hl]
    rw [hg] at ht hs
    have hmeta := lookup_addProcessingMetadata now workerId d method u f hf v hl
      (pyTruthy_isNone_false ht)
    have hg2 : dictGet (addProcessingMetadata now workerId d method u) f = v := by
      unfold dictGet; rw [hmeta]
    rw [fieldPopulated, hg2, ht, hs]
    rfl

theorem validate_addProcessingMetadata (now workerId : PyVal) (d : PyDict)
    (method : String) (u : PyVal) (h : validateExtractedData d = true) :
    validateExtractedData (addProcessingMetadata now workerId d method u) = true := by
  have hmono : countPopulatedKeyFields d ≤
      countPopulatedKeyFields (addProcessingMetadata now workerId d method u) := by
    apply length_filter_le_of_imp
    intro f hf hp
    exact fieldPopulated_addProcessingMetadata now workerId d method u f hf hp
  simp only [validateExtractedData, decide_eq_true_eq] at h ⊢
  exact le_trans h (by exact_mod_cast hmono)

theorem mem_jinaExceptHandler {env : ProcEnv} {wid e : String} {tr : List SvcCall}
    {c : SvcCall} (hc : c ∈ (jinaExceptHandler env wid e tr).2) :
    c ∈ tr ∨ ∃ em, c = SvcCall.markWebpageFailed wid "jina_processing_error" em := by
  unfold jinaExceptHandler at hc
  dsimp only [] at hc
  split at hc <;>
    (rcases List.mem_append.mp hc with h | h
     · exact Or.inl h
     · exact Or.inr ⟨_, List.mem_singleton.mp h⟩)

theorem mem_jinaMarkAndFail {env : ProcEnv} {wid etype emsg rerror rtype : String}
    {tr : List SvcCall} {c : SvcCall}
    (hc : c ∈ (jinaMarkAndFail env wid etype emsg rerror rtype tr).2) :
    c ∈ tr ∨ c = SvcCall.markWebpageFailed wid etype emsg ∨
      ∃ em, c = SvcCall.markWebpageFailed wid "jina_processing_error" em := by
  unfold jinaMarkAndFail at hc
  split at hc
  · rcases List.mem_append.mp hc with h | h
    · exact Or.inl h
    · exact Or.inr (Or.inl (List.mem_singleton.mp h))
  · rcases mem_jinaExceptHandler hc with h | h
    · rcases List.mem_append.mp h with h2 | h2
      · exact Or.inl h2
      · exact Or.inr (Or.inl (List.mem_singleton.mp h2))
    · exact Or.inr (Or.inr h)

theorem mem_rapidExceptHandler {env : ProcEnv} {wid e : String} {tr : List SvcCall}
    {c : SvcCall} (hc : c ∈ (rapidExceptHandler env wid e tr).2) :
    c ∈ tr ∨ ∃ em, c = SvcCall.markWebpageFailed wid "rapidapi_processing_error" em := by
  unfold rapidExceptHandler at hc
  dsimp only [] at hc
  split at hc <;>
    (rcases List.mem_append.mp hc with h | h
     · exact Or.inl h
     · exact Or.inr ⟨_, List.mem_singleton.mp h⟩)

theorem mem_rapidMarkAndFail {env : ProcEnv} {wid etype emsg rerror rtype : String}
    {tr : List SvcCall} {c : SvcCall}
    (hc : c ∈ (rapidMarkAndFail env wid etype emsg rerror rtype tr).2) :
    c ∈ tr ∨ c = SvcCall.markWebpageFailed wid etype emsg ∨
      ∃ em, c = SvcCall.markWebpageFailed wid "rapidapi_processing_error" em := by
  unfold rapidMarkAndFail at hc
  split at hc
  · rcases List.mem_append.mp hc with h | h
    · exact Or.inl h
    · exact Or.inr (Or.inl (List.mem_singleton.mp h))
  · rcases mem_rapidExceptHandler hc with h | h
    · rcases List.mem_append.mp h with h2 | h2
      · exact Or.inl h2
      · exact Or.inr (Or.inl (List.mem_singleton.mp h2))
    · exact Or.inr (Or.inr h)

/-- Shape of every collaborator call `process_with_jina` can make: a
provider fetch, a mark-failed with one of its five jina-specific error
labels, a persistence call whose record passed the validator, or a
node-enrichment call. -/
theorem processWithJina_calls (env : ProcEnv) (wid : String) (url : PyVal) :
    ∀ c ∈ (processWithJina env wid url).2,
      (∃ u, c = SvcCall.jinaFetch u) ∨
      (∃ et em, c = SvcCall.markWebpageFailed wid et em ∧ et ≠ "both_apis_failed" ∧
        et ≠ "processing_error") ∨
      (∃ r, c = SvcCall.updateWebpage wid r ∧ validateExtractedData r = true) ∨
      (∃ r, c = SvcCall.updateNodes wid r) := by
  intro c hc
  unfold processWithJina at hc
  dsimp only [] at hc
  split at hc
  · rcases mem_jinaExceptHandler hc with h | ⟨em, h⟩
    · exact Or.inl ⟨url, List.mem_singleton.mp h⟩
    · exact Or.inr (Or.inl ⟨_, em, h, by decide, by decide⟩)
  · split at hc
    · split at hc
      · rcases mem_jinaMarkAndFail hc with h | h | ⟨em, h⟩
        · exact Or.inl ⟨url, List.mem_singleton.mp h⟩
        · exact Or.inr (Or.inl ⟨_, _, h, by decide, by decide⟩)
        · exact Or.inr (Or.inl ⟨_, em, h, by decide, by decide⟩)
      · split at hc
        next hval =>
          split at hc
          · rcases mem_jinaExceptHandler hc with h | ⟨em, h⟩
            · rcases List.mem_cons.mp h with h2 | h2
              · exact Or.inl ⟨url, h2⟩
              · exact Or.inr (Or.inr (Or.inl ⟨_, List.mem_singleton.mp h2,
                  validate_addProcessingMetadata _ _ _ _ _ hval⟩))
            · exact Or.inr (Or.inl ⟨_, em, h, by decide, by decide⟩)
          · split at hc
            · split at hc
              · rcases mem_jinaExceptHandler hc with h | ⟨em, h⟩
                · rcases List.mem_cons.mp h with h2 | h2
                  · exact Or.inl ⟨url, h2⟩
                  · rcases List.mem_cons.mp h2 with h3 | h3
                    · exact Or.inr (Or.inr (Or.inl ⟨_, h3,
                        validate_addProcessingMetadata _ _ _ _ _ hval⟩))
                    · exact Or.inr (Or.inr (Or.inr ⟨_, List.mem_singleton.mp h3⟩))
                · exact Or.inr (Or.inl ⟨_, em, h, by decide, by decide⟩)
              · rcases List.mem_cons.mp hc with h2 | h2
                · exact Or.inl ⟨url, h2⟩
                · rcases List.mem_cons.mp h2 with h3 | h3
                  · exact Or.inr (Or.inr (Or.inl ⟨_, h3,
                      validate_addProcessingMetadata _ _ _ _ _ hval⟩))
                  · exact Or.inr (Or.inr (Or.inr ⟨_, List.mem_singleton.mp h3⟩))
            · rcases mem_jinaMarkAndFail hc with h | h | ⟨em, h⟩
              · rcases List.mem_cons.mp h with h2 | h2
                · exact Or.inl ⟨url, h2⟩
                · exact Or.inr (Or.inr (Or.inl ⟨_, List.mem_singleton.mp h2,
                    validate_addProcessingMetadata _ _ _ _ _ hval⟩))
              · exact Or.inr (Or.inl ⟨_, _, h, by decide, by decide⟩)
              · exact Or.inr (Or.inl ⟨_, em, h, by decide, by decide⟩)
        next hval =>
          rcases mem_jinaMarkAndFail hc with h | h | ⟨em, h⟩
          · exact Or.inl ⟨url, List.mem_singleton.mp h⟩
          · exact Or.inr (Or.inl ⟨_, _, h, by decide, by decide⟩)
          · exact Or.inr (Or.inl ⟨_, em, h, by decide, by decide⟩)
    · rcases mem_jinaMarkAndFail hc with h | h | ⟨em, h⟩
      · exact Or.inl ⟨url, List.mem_singleton.mp h⟩
      · exact Or.inr (Or.inl ⟨_, _, h, by decide, by decide⟩)
      · exact Or.inr (Or.inl ⟨_, em, h, by decide, by decide⟩)

/-- Shape of every collaborator call `process_with_rapidapi` can make. -/
theorem processWithRapidapi_calls (env : ProcEnv) (wid : String) (url : PyVal) :
    ∀ c ∈ (processWithRapidapi env wid url).2,
      (∃ u, c = SvcCall.rapidFetch u) ∨
      (∃ et em, c = SvcCall.markWebpageFailed wid et em ∧ et ≠ "both_apis_failed" ∧
        et ≠ "processing_error") ∨
      (∃ r, c = SvcCall.updateWebpage wid r ∧ validateExtractedData r = true) ∨
      (∃ r, c = SvcCall.updateNodes wid r) := by
  intro c hc
  unfold processWithRapidapi at hc
  dsimp only [] at hc
  split at hc
  · rcases mem_rapidExceptHandler hc with h | ⟨em, h⟩
    · exact Or.inl ⟨url, List.mem_singleton.mp h⟩
    · exact Or.inr (Or.inl ⟨_, em, h, by decide, by decide⟩)
  · split at hc
    · split at hc
      · rcases mem_rapidMarkAndFail hc with h | h | ⟨em, h⟩
        · exact Or.inl ⟨url, List.mem_singleton.mp h⟩
        · exact Or.inr (Or.inl ⟨_, _, h, by decide, by decide⟩)
        · exact Or.inr (Or.inl ⟨_, em, h, by decide, by decide⟩)
      · split at hc
        next hval =>
          split at hc
          · rcases mem_rapidExceptHandler hc with h | ⟨em, h⟩
            · rcases List.mem_cons.mp h with h2 | h2
              · exact Or.inl ⟨url, h2⟩
              · exact Or.inr (Or.inr (Or.inl ⟨_, List.mem_singleton.mp h2,
                  validate_addProcessingMetadata _ _ _ _ _ hval⟩))
            · exact Or.inr (Or.inl ⟨_, em, h, by decide, by decide⟩)
          · split at hc
            · split at hc
              · rcases mem_rapidExceptHandler hc with h | ⟨em, h⟩
                · rcases List.mem_cons.mp h with h2 | h2
                  · exact Or.inl ⟨url, h2⟩
                  · rcases List.mem_cons.mp h2 with h3 | h3
                    · exact Or.inr (Or.inr (Or.inl ⟨_, h3,
                        validate_addProcessingMetadata _ _ _ _ _ hval⟩))
                    · exact Or.inr (Or.inr (Or.inr ⟨_, List.mem_singleton.mp h3⟩))
                · exact Or.inr (Or.inl ⟨_, em, h, by decide, by decide⟩)
              · rcases List.mem_cons.mp hc with h2 | h2
                · exact Or.inl ⟨url, h2⟩
                · rcases List.mem_cons.mp h2 with h3 | h3
                  · exact Or.inr (Or.inr (Or.inl ⟨_, h3,
                      validate_addProcessingMetadata _ _ _ _ _ hval⟩))
                  · exact Or.inr (Or.inr (Or.inr ⟨_, List.mem_singleton.mp h3⟩))
            · rcases mem_rapidMarkAndFail hc with h | h | ⟨em, h⟩
              · rcases List.mem_cons.mp h with h2 | h2
                · exact Or.inl ⟨url, h2⟩
                · exact Or.inr (Or.inr (Or.inl ⟨_, List.mem_singleton.mp h2,
                    validate_addProcessingMetadata _ _ _ _ _ hval⟩))
              · exact Or.inr (Or.inl ⟨_, _, h, by decide, by decide⟩)
              · exact Or.inr (Or.inl ⟨_, em, h, by decide, by decide⟩)
        next hval =>
          rcases mem_rapidMarkAndFail hc with h | h | ⟨em, h⟩
          · exact Or.inl ⟨url, List.mem_singleton.mp h⟩
          · exact Or.inr (Or.inl ⟨_, _, h, by decide, by decide⟩)
          · exact Or.inr (Or.inl ⟨_, em, h, by decide, by decide⟩)
    · rcases mem_rapidMarkAndFail hc with h | h | ⟨em, h⟩
      · exact Or.inl ⟨url, List.mem_singleton.mp h⟩
      · exact Or.inr (Or.inl ⟨_, _, h, by decide, by decide⟩)
      · exact Or.inr (Or.inl ⟨_, em, h, by decide, by decide⟩)

theorem mem_processingErrorHandler {env : ProcEnv} {wid e : String} {tr : List SvcCall}
    {c : SvcCall} (hc : c ∈ (processingErrorHandler env wid e tr).2) :
    c ∈ tr ∨ ∃ em, c = SvcCall.markWebpageFailed wid "processing_error" em := by
  unfold processingErrorHandler at hc
  dsimp only [] at hc
  split at hc <;>
    (rcases List.mem_append.mp hc with h | h
     · exact Or.inl h
     · exact Or.inr ⟨_, List.mem_singleton.mp h⟩)

theorem mem_bothFailedTail {env : ProcEnv} {wid : String} {jr rr : PyDict}
    {tr : List SvcCall} {c : SvcCall} (hc : c ∈ (bothFailedTail env wid jr rr tr).2) :
    c ∈ tr ∨ c = SvcCall.cleanupFailedWebpage wid ∨
      (∃ em, c = SvcCall.markWebpageFailed wid "both_apis_failed" em) ∨
      (∃ em, c = SvcCall.markWebpageFailed wid "processing_error" em) := by
  unfold bothFailedTail at hc
  dsimp only [] at hc
  split at hc
  · split at hc
    · rcases mem_processingErrorHandler hc with h | ⟨em, h⟩
      · rcases List.mem_append.mp h with h2 | h2
        · exact Or.inl h2
        · exact Or.inr (Or.inl (List.mem_singleton.mp h2))
      · exact Or.inr (Or.inr (Or.inr ⟨em, h⟩))
    · rcases List.mem_append.mp hc with h | h
      · exact Or.inl h
      · exact Or.inr (Or.inl (List.mem_singleton.mp h))
  · split at hc
    · rcases mem_processingErrorHandler hc with h | ⟨em, h⟩
      · rcases List.mem_append.mp h with h2 | h2
        · exact Or.inl h2
        · exact Or.inr (Or.inr (Or.inl ⟨_, List.mem_singleton.mp h2⟩))
      · exact Or.inr (Or.inr (Or.inr ⟨em, h⟩))
    · rcases List.mem_append.mp hc with h | h
      · exact Or.inl h
      · exact Or.inr (Or.inr (Or.inl ⟨_, List.mem_singleton.mp h⟩))

theorem updateWebpage_mem_jina_validated {env : ProcEnv} {wid : String} {url : PyVal}
    {w : String} {r : PyDict}
    (h : SvcCall.updateWebpage w r ∈ (processWithJina env wid url).2) :
    validateExtractedData r = true := by
  rcases processWithJina_calls env wid url _ h with
    ⟨u, h⟩ | ⟨et, em, h, _, _⟩ | ⟨r2, h, hv⟩ | ⟨r2, h⟩
  · exact SvcCall.noConfusion h
  · exact SvcCall.noConfusion h
  · injection h with h1 h2
    subst h2
    exact hv
  · exact SvcCall.noConfusion h

theorem updateWebpage_mem_rapid_validated {env : ProcEnv} {wid : String} {url : PyVal}
    {w : String} {r : PyDict}
    (h : SvcCall.updateWebpage w r ∈ (processWithRapidapi env wid url).2) :
    validateExtractedData r = true := by
  rcases processWithRapidapi_calls env wid url _ h with
    ⟨u, h⟩ | ⟨et, em, h, _, _⟩ | ⟨r2, h, hv⟩ | ⟨r2, h⟩
  · exact SvcCall.noConfusion h
  · exact SvcCall.noConfusion h
  · injection h with h1 h2
    subst h2
    exact hv
  · exact SvcCall.noConfusion h

theorem cleanup_not_mem_jina (env : ProcEnv) (wid : String) (url : PyVal) (w : String) :
    SvcCall.cleanupFailedWebpage w ∉ (processWithJina env wid url).2 := by
  intro h
  rcases processWithJina_calls env wid url _ h with
    ⟨u, h⟩ | ⟨et, em, h, _, _⟩ | ⟨r, h, _⟩ | ⟨r, h⟩ <;> exact SvcCall.noConfusion h

theorem cleanup_not_mem_rapid (env : ProcEnv) (wid : String) (url : PyVal) (w : String) :
    SvcCall.cleanupFailedWebpage w ∉ (processWithRapidapi env wid url).2 := by
  intro h
  rcases processWithRapidapi_calls env wid url _ h with
    ⟨u, h⟩ | ⟨et, em, h, _, _⟩ | ⟨r, h, _⟩ | ⟨r, h⟩ <;> exact SvcCall.noConfusion h

theorem bothMark_not_mem_jina (env : ProcEnv) (wid : String) (url : PyVal)
    (w em' : String) :
    SvcCall.markWebpageFailed w "both_apis_failed" em' ∉ (processWithJina env wid url).2 := by
  intro h
  rcases processWithJina_calls env wid url _ h with
    ⟨u, h⟩ | ⟨et, em, h, hne, _⟩ | ⟨r, h, _⟩ | ⟨r, h⟩
  · exact SvcCall.noConfusion h
  · injection h with h1 h2 h3
    exact hne h2.symm
  · exact SvcCall.noConfusion h
  · exact SvcCall.noConfusion h

theorem bothMark_not_mem_rapid (env : ProcEnv) (wid : String) (url : PyVal)
    (w em' : String) :
    SvcCall.markWebpageFailed w "both_apis_failed" em' ∉
      (processWithRapidapi env wid url).2 := by
  intro h
  rcases processWithRapidapi_calls env wid url _ h with
    ⟨u, h⟩ | ⟨et, em, h, hne, _⟩ | ⟨r, h, _⟩ | ⟨r, h⟩
  · exact SvcCall.noConfusion h
  · injection h with h1 h2 h3
    exact hne h2.symm
  · exact SvcCall.noConfusion h
  · exact SvcCall.noConfusion h

/-- Any persistence call recorded anywhere in a `process_webpage` run
carries a record that passed the validator. -/
theorem processWebpage_updateWebpage_validated (env : ProcEnv) (wid w : String)
    (r : PyDict) (hm : SvcCall.updateWebpage w r ∈ (processWebpage env wid).2) :
    validateExtractedData r = true := by
  unfold processWebpage at hm
  dsimp only [] at hm
  split at hm
  · rcases mem_processingErrorHandler hm with h | ⟨em, h⟩
    · exact SvcCall.noConfusion (List.mem_singleton.mp h)
    · exact SvcCall.noConfusion h
  · split at hm
    · split at hm
      · split at hm
        next e trJ heq =>
          rcases mem_processingErrorHandler hm with h | ⟨em, h⟩
          · rcases List.mem_cons.mp h with h2 | h2
            · exact SvcCall.noConfusion h2
            · exact updateWebpage_mem_jina_validated (by rw [heq]; exact h2)
          · exact SvcCall.noConfusion h
        next jinaResult trJ heq =>
          split at hm
          · rcases List.mem_cons.mp hm with h2 | h2
            · exact SvcCall.noConfusion h2
            · exact updateWebpage_mem_jina_validated (by rw [heq]; exact h2)
          · split at hm
            · split at hm
              next e trR heq2 =>
                rcases mem_processingErrorHandler hm with h | ⟨em, h⟩
                · rcases List.mem_append.mp h with h2 | h2
                  · rcases List.mem_cons.mp h2 with h3 | h3
                    · exact SvcCall.noConfusion h3
                    · exact updateWebpage_mem_jina_validated (by rw [heq]; exact h3)
                  · exact updateWebpage_mem_rapid_validated (by rw [heq2]; exact h2)
                · exact SvcCall.noConfusion h
              next rapidResult trR heq2 =>
                split at hm
                · rcases List.mem_append.mp hm with h2 | h2
                  · rcases List.mem_cons.mp h2 with h3 | h3
                    · exact SvcCall.noConfusion h3
                    · exact updateWebpage_mem_jina_validated (by rw [heq]; exact h3)
                  · exact updateWebpage_mem_rapid_validated (by rw [heq2]; exact h2)
                · rcases mem_bothFailedTail hm with h | h | ⟨em, h⟩ | ⟨em, h⟩
                  · rcases List.mem_append.mp h with h2 | h2
                    · rcases List.mem_cons.mp h2 with h3 | h3
                      · exact SvcCall.noConfusion h3
                      · exact updateWebpage_mem_jina_validated (by rw [heq]; exact h3)
                    · exact updateWebpage_mem_rapid_validated (by rw [heq2]; exact h2)
                  · exact SvcCall.noConfusion h
                  · exact SvcCall.noConfusion h
                  · exact SvcCall.noConfusion h
            · rcases mem_bothFailedTail hm with h | h | ⟨em, h⟩ | ⟨em, h⟩
              · rcases List.mem_cons.mp h with h3 | h3
                · exact SvcCall.noConfusion h3
                · exact updateWebpage_mem_jina_validated (by rw [heq]; exact h3)
              · exact SvcCall.noConfusion h
              · exact SvcCall.noConfusion h
              · exact SvcCall.noConfusion h
      · split at hm
        · rcases mem_processingErrorHandler hm with h | ⟨em, h⟩
          · rcases List.mem_cons.mp h with h2 | h2
            · exact SvcCall.noConfusion h2
            · exact SvcCall.noConfusion (List.mem_singleton.mp h2)
          · exact SvcCall.noConfusion h
        · rcases List.mem_cons.mp hm with h2 | h2
          · exact SvcCall.noConfusion h2
          · exact SvcCall.noConfusion (List.mem_singleton.mp h2)
    · exact SvcCall.noConfusion (List.mem_singleton.mp hm)

theorem jinaExceptHandler_ok (env : ProcEnv) (wid e : String) (tr : List SvcCall)
    (hmark : ∀ a b c, ∃ r, env.markWebpageFailed a b c = Except.ok r) :
    ∃ res, (jinaExceptHandler env wid e tr).1 = Except.ok res := by
  unfold jinaExceptHandler
  dsimp only []
  obtain ⟨r, hr⟩ := hmark wid "jina_processing_error"
    ("Jina processing error for webpage " ++ wid ++ ": " ++ e)
  rw [hr]
  exact ⟨_, rfl⟩

theorem jinaMarkAndFail_ok (env : ProcEnv) (wid etype emsg rerror rtype : String)
    (tr : List SvcCall)
    (hmark : ∀ a b c, ∃ r, env.markWebpageFailed a b c = Except.ok r) :
    ∃ res, (jinaMarkAndFail env wid etype emsg rerror rtype tr).1 = Except.ok res := by
  unfold jinaMarkAndFail
  obtain ⟨r, hr⟩ := hmark wid etype emsg
  rw [hr]
  exact ⟨_, rfl⟩

theorem rapidExceptHandler_ok (env : ProcEnv) (wid e : String) (tr : List SvcCall)
    (hmark : ∀ a b c, ∃ r, env.markWebpageFailed a b c = Except.ok r) :
    ∃ res, (rapidExceptHandler env wid e tr).1 = Except.ok res := by
  unfold rapidExceptHandler
  dsimp only []
  obtain ⟨r, hr⟩ := hmark wid "rapidapi_processing_error"
    ("RapidAPI processing error for webpage " ++ wid ++ ": " ++ e)
  rw [hr]
  exact ⟨_, rfl⟩

theorem rapidMarkAndFail_ok (env : ProcEnv) (wid etype emsg rerror rtype : String)
    (tr : List SvcCall)
    (hmark : ∀ a b c, ∃ r, env.markWebpageFailed a b c = Except.ok r) :
    ∃ res, (rapidMarkAndFail env wid etype emsg rerror rtype tr).1 = Except.ok res := by
  unfold rapidMarkAndFail
  obtain ⟨r, hr⟩ := hmark wid etype emsg
  rw [hr]
  exact ⟨_, rfl⟩

theorem processingErrorHandler_ok (env : ProcEnv) (wid e : String) (tr : List SvcCall)
    (hmark : ∀ a b c, ∃ r, env.markWebpageFailed a b c = Except.ok r) :
    ∃ res, (processingErrorHandler env wid e tr).1 = Except.ok res := by
  unfold processingErrorHandler
  dsimp only []
  obtain ⟨r, hr⟩ := hmark wid "processing_error"
    ("Unexpected error processing webpage " ++ wid ++ ": " ++ e)
  rw [hr]
  exact ⟨_, rfl⟩

theorem bothFailedTail_ok (env : ProcEnv) (wid : String) (jr rr : PyDict)
    (tr : List SvcCall)
    (hmark : ∀ a b c, ∃ r, env.markWebpageFailed a b c = Except.ok r) :
    ∃ res, (bothFailedTail env wid jr rr tr).1 = Except.ok res := by
  unfold bothFailedTail
  dsimp only []
  split
  · split
    · exact processingErrorHandler_ok env wid _ _ hmark
    · exact ⟨_, rfl⟩
  · obtain ⟨r, hr⟩ := hmark wid "both_apis_failed"
      ("Both Jina and RapidAPI failed for webpage " ++ wid)
    rw [hr]
    exact ⟨_, rfl⟩

theorem processWithJina_ok (env : ProcEnv) (wid : String) (url : PyVal)
    (hmark : ∀ a b c, ∃ r, env.markWebpageFailed a b c = Except.ok r) :
    ∃ res, (processWithJina env wid url).1 = Except.ok res := by
  unfold processWithJina
  dsimp only []
  repeat' first
    | split
    | exact jinaExceptHandler_ok env wid _ _ hmark
    | exact jinaMarkAndFail_ok env wid _ _ _ _ _ hmark
    | exact ⟨_, rfl⟩

theorem processWithRapidapi_ok (env : ProcEnv) (wid : String) (url : PyVal)
    (hmark : ∀ a b c, ∃ r, env.markWebpageFailed a b c = Except.ok r) :
    ∃ res, (processWithRapidapi env wid url).1 = Except.ok res := by
  unfold processWithRapidapi
  dsimp only []
  repeat' first
    | split
    | exact rapidExceptHandler_ok env wid _ _ hmark
    | exact rapidMarkAndFail_ok env wid _ _ _ _ _ hmark
    | exact ⟨_, rfl⟩

/-- Behavior of the both-methods-failed tail when the backend calls it
makes there succeed: the combined failure result, with cleanup invoked
exactly when the policy flag is set and mark-failed exactly otherwise. -/
theorem bothFailedTail_spec (env : ProcEnv) (wid : String) (jr rr : PyDict)
    (tr : List SvcCall) (bc bm : Bool)
    (hcleanup : env.cleanupFailedWebpage wid = Except.ok bc)
    (hmark : env.markWebpageFailed wid "both_apis_failed"
        ("Both Jina and RapidAPI failed for webpage " ++ wid) = Except.ok bm)
    (hnc : SvcCall.cleanupFailedWebpage wid ∉ tr)
    (hnm : ∀ em, SvcCall.markWebpageFailed wid "both_apis_failed" em ∉ tr) :
    (bothFailedTail env wid jr rr tr).1 = Except.ok (bothFailedResult wid jr rr) ∧
    (SvcCall.cleanupFailedWebpage wid ∈ (bothFailedTail env wid jr rr tr).2 ↔
      env.cleanupOnFailure = true) ∧
    (SvcCall.markWebpageFailed wid "both_apis_failed"
        ("Both Jina and RapidAPI failed for webpage " ++ wid) ∈
        (bothFailedTail env wid jr rr tr).2 ↔
      env.cleanupOnFailure = false) := by
  by_cases hflag : env.cleanupOnFailure = true
  · have he : bothFailedTail env wid jr rr tr =
        (Except.ok (bothFailedResult wid jr rr),
         tr ++ [SvcCall.cleanupFailedWebpage wid]) := by
      unfold bothFailedTail
      dsimp only []
      rw [if_pos hflag, hcleanup]
    rw [he]
    refine ⟨rfl, ?_, ?_⟩
    · exact iff_of_true
        (List.mem_append.mpr (Or.inr (List.mem_singleton_self _))) hflag
    · apply iff_of_false
      · intro hmem
        rcases List.mem_append.mp hmem with h | h
        · exact hnm _ h
        · exact SvcCall.noConfusion (List.mem_singleton.mp h)
      · simp [hflag]
  · have hflag' : env.cleanupOnFailure = false := by
      simpa using hflag
    have he : bothFailedTail env wid jr rr tr =
        (Except.ok (bothFailedResult wid jr rr),
         tr ++ [SvcCall.markWebpageFailed wid "both_apis_failed"
           ("Both Jina and RapidAPI failed for webpage " ++ wid)]) := by
      unfold bothFailedTail
      dsimp only []
      rw [if_neg hflag, hmark]
    rw [he]
    refine ⟨rfl, ?_, ?_⟩
    · apply iff_of_false
      · intro hmem
        rcases List.mem_append.mp hmem with h | h
        · exact hnc h
        · exact SvcCall.noConfusion (List.mem_singleton.mp h)
      · simp [hflag']
    · exact iff_of_true
        (List.mem_append.mpr (Or.inr (List.mem_singleton_self _))) hflag'

/-! ### Claim C8 -/

/-- C8 counterexample: the claim asserts statusCode 200 for any
completed processing attempt, success or failure; but a completed
logical failure (both providers empty) yields statusCode 500. -/
theorem C8_completed_failure_gets_500 :
    respStatusCode (lambdaHandler lambdaEnvBothFail [("webpageId", PyVal.str "w1")]) =
      PyVal.int 500 ∧
    (lambdaHandler lambdaEnvBothFail [("webpageId", PyVal.str "w1")]).isOk = true :=
  ⟨rfl, rfl⟩

/-- C8 (amended): a request whose payload lacks a truthy `webpageId`
receives statusCode 400; a well-formed default-action request whose
processing completes receives statusCode 200 exactly when the result
is a logical success and 500 when it is a logical failure (uncaught
errors propagate out of the handler uncoded). -/
theorem C8_status_code_mapping :
    (∀ (lenv : LambdaEnv) (event : PyDict),
      pyTruthy (dictGet (extractPayload lenv event) "webpageId") = false →
      respStatusCode (lambdaHandler lenv event) = PyVal.int 400) ∧
    (∀ (lenv : LambdaEnv) (event : PyDict) (r : PyDict),
      pyTruthy (dictGet (extractPayload lenv event) "operation") = false →
      pyTruthy (dictGet (extractPayload lenv event) "action") = false →
      pyTruthy (dictGet (extractPayload lenv event) "webpageId") = true →
      (processWebpage lenv.proc
          (pyStr (dictGet (extractPayload lenv event) "webpageId"))).1 = Except.ok r →
      respStatusCode (lambdaHandler lenv event) =
        PyVal.int (if pyTruthy (dictGet r "success") then 200 else 500)) := by
  constructor
  · intro lenv event hwid
    unfold lambdaHandler
    dsimp only []
    rw [if_neg (by rw [hwid]; exact Bool.false_ne_true)]
    rfl
  · intro lenv event r hop hact hwid hrun
    unfold lambdaHandler
    dsimp only []
    rw [if_pos hwid]
    have haction : pyOr (dictGet (extractPayload lenv event) "operation")
        (pyOr (dictGet (extractPayload lenv event) "action") (PyVal.str "process")) =
        PyVal.str "process" := by
      unfold pyOr
      rw [if_neg (by rw [hop]; exact Bool.false_ne_true),
        if_neg (by rw [hact]; exact Bool.false_ne_true)]
    rw [haction]
    dsimp only []
    rw [if_neg (by decide)]
    rcases hP : processWebpage lenv.proc
        (pyStr (dictGet (extractPayload lenv event) "webpageId")) with ⟨res, tr⟩
    rw [hP] at hrun
    dsimp only [] at hrun
    subst hrun
    rfl

/-- C8 witness: a malformed request at a concrete environment receives
400, and a completed fallback success receives the success/failure
status of its result. -/
theorem C8_status_code_mapping_witness :
    respStatusCode (lambdaHandler lambdaEnvBothFail [("nodeId", PyVal.str "n")]) =
      PyVal.int 400 ∧
    respStatusCode (lambdaHandler lambdaEnvSuccess [("webpageId", PyVal.str "w1")]) =
      PyVal.int
        (if pyTruthy (dictGet (successResult "w1" "rapidapi" 1
            (countTruthyEntries (mapRapidapiToStandard
              [("name", PyVal.str "Acme"), ("description", PyVal.str "d"),
               ("website", PyVal.str "w")]))) "success") then 200 else 500) :=
  ⟨C8_status_code_mapping.1 lambdaEnvBothFail [("nodeId", PyVal.str "n")] rfl,
   C8_status_code_mapping.2 lambdaEnvSuccess [("webpageId", PyVal.str "w1")]
     (successResult "w1" "rapidapi" 1
       (countTruthyEntries (mapRapidapiToStandard
         [("name", PyVal.str "Acme"), ("description", PyVal.str "d"),
          ("website", PyVal.str "w")])))
     rfl rfl rfl rfl⟩

/-! ### Claim C2 -/

/-- C2: when the primary path has produced a non-success result and the
fallback has failed as well (or is unconfigured), `process_webpage`
invokes backend cleanup exactly when `CLEANUP_ON_FAILURE` is set and
mark-failed exactly otherwise, and its returned failure result carries
`success=False`, the both-providers-failed error label
(`both_apis_failed` in the source), and both providers' individual
failure reasons (`jinaError` / `rapidapiError`). -/
theorem C2_both_failed_cleanup_iff (env : ProcEnv) (wid : String) (w jr : PyDict)
    (trJ : List SvcCall) (rr : PyDict) (trR : List SvcCall) (bc bm : Bool)
    (hfetch : env.fetchWebpage wid = Except.ok (Option.some w))
    (hw : w ≠ [])
    (hurl : pyTruthy (dictGet w "url") = true)
    (hjina : processWithJina env wid (dictGet w "url") = (Except.ok jr, trJ))
    (hjfail : pyTruthy (dictGet jr "success") = false)
    (hrapid : (env.rapidapiConfigured = true ∧
        processWithRapidapi env wid (dictGet w "url") = (Except.ok rr, trR) ∧
        pyTruthy (dictGet rr "success") = false) ∨
      (env.rapidapiConfigured = false ∧
        rr = [("success", PyVal.bool false),
              ("error", PyVal.str "rapidapi_key_not_configured")] ∧ trR = []))
    (hcleanup : env.cleanupFailedWebpage wid = Except.ok bc)
    (hmark : env.markWebpageFailed wid "both_apis_failed"
        ("Both Jina and RapidAPI failed for webpage " ++ wid) = Except.ok bm) :
    (processWebpage env wid).1 = Except.ok (bothFailedResult wid jr rr) ∧
    (SvcCall.cleanupFailedWebpage wid ∈ (processWebpage env wid).2 ↔
      env.cleanupOnFailure = true) ∧
    (SvcCall.markWebpageFailed wid "both_apis_failed"
        ("Both Jina and RapidAPI failed for webpage " ++ wid) ∈
        (processWebpage env wid).2 ↔
      env.cleanupOnFailure = false) ∧
    dictGet (bothFailedResult wid jr rr) "success" = PyVal.bool false ∧
    dictGet (bothFailedResult wid jr rr) "errorType" = PyVal.str "both_apis_failed" ∧
    dictGet (bothFailedResult wid jr rr) "jinaError" = dictGet jr "error" ∧
    dictGet (bothFailedResult wid jr rr) "rapidapiError" = dictGet rr "error" := by
  have hopt : optDictTruthy (Option.some w) = true := by
    unfold optDictTruthy
    simp [List.isEmpty_eq_false, hw]
  rcases hrapid with ⟨hcfg, hr, hrfail⟩ | ⟨hcfg, hrr, htrR⟩
  · have hrun : processWebpage env wid =
        bothFailedTail env wid jr rr ((SvcCall.fetchWebpage wid :: trJ) ++ trR) := by
      unfold processWebpage
      rw [hfetch]
      dsimp only []
      rw [if_pos hopt]
      simp only [Option.getD_some]
      rw [if_pos hurl, hjina]
      dsimp only []
      rw [if_neg (by rw [hjfail]; exact Bool.false_ne_true),
        if_pos hcfg, hr]
      dsimp only []
      rw [if_neg (by rw [hrfail]; exact Bool.false_ne_true)]
    have hnc : SvcCall.cleanupFailedWebpage wid ∉
        (SvcCall.fetchWebpage wid :: trJ) ++ trR := by
      intro h
      rcases List.mem_append.mp h with h2 | h2
      · rcases List.mem_cons.mp h2 with h3 | h3
        · exact SvcCall.noConfusion h3
        · exact cleanup_not_mem_jina env wid _ wid (by rw [hjina]; exact h3)
      · exact cleanup_not_mem_rapid env wid _ wid (by rw [hr]; exact h2)
    have hnm : ∀ em, SvcCall.markWebpageFailed wid "both_apis_failed" em ∉
        (SvcCall.fetchWebpage wid :: trJ) ++ trR := by
      intro em h
      rcases List.mem_append.mp h with h2 | h2
      · rcases List.mem_cons.mp h2 with h3 | h3
        · exact SvcCall.noConfusion h3
        · exact bothMark_not_mem_jina env wid _ wid em (by rw [hjina]; exact h3)
      · exact bothMark_not_mem_rapid env wid _ wid em (by rw [hr]; exact h2)
    obtain ⟨h1, h2, h3⟩ :=
      bothFailedTail_spec env wid jr rr _ bc bm hcleanup hmark hnc hnm
    rw [hrun]
    exact ⟨h1, h2, h3, rfl, rfl, rfl, rfl⟩
  · subst hrr
    subst htrR
    have hrun : processWebpage env wid =
        bothFailedTail env wid jr
          [("success", PyVal.bool false),
           ("error", PyVal.str "rapidapi_key_not_configured")]
          (SvcCall.fetchWebpage wid :: trJ) := by
      unfold processWebpage
      rw [hfetch]
      dsimp only []
      rw [if_pos hopt]
      simp only [Option.getD_some]
      rw [if_pos hurl, hjina]
      dsimp only []
      rw [if_neg (by rw [hjfail]; exact Bool.false_ne_true),
        if_neg (by rw [hcfg]; exact Bool.false_ne_true)]
    have hnc : SvcCall.cleanupFailedWebpage wid ∉
        SvcCall.fetchWebpage wid :: trJ := by
      intro h
      rcases List.mem_cons.mp h with h3 | h3
      · exact SvcCall.noConfusion h3
      · exact cleanup_not_mem_jina env wid _ wid (by rw [hjina]; exact h3)
    have hnm : ∀ em, SvcCall.markWebpageFailed wid "both_apis_failed" em ∉
        SvcCall.fetchWebpage wid :: trJ := by
      intro em h
      rcases List.mem_cons.mp h with h3 | h3
      · exact SvcCall.noConfusion h3
      · exact bothMark_not_mem_jina env wid _ wid em (by rw [hjina]; exact h3)
    obtain ⟨h1, h2, h3⟩ :=
      bothFailedTail_spec env wid jr _ _ bc bm hcleanup hmark hnc hnm
    rw [hrun]
    exact ⟨h1, h2, h3, rfl, rfl, rfl, rfl⟩

/-- C2 witness: with both providers returning nothing and the cleanup
flag set, a run of the orchestrator records the cleanup call. -/
theorem C2_both_failed_cleanup_iff_witness :
    SvcCall.cleanupFailedWebpage "w1" ∈ (processWebpage envBothProvidersFail "w1").2 ↔
      envBothProvidersFail.cleanupOnFailure = true :=
  (C2_both_failed_cleanup_iff envBothProvidersFail "w1" [("url", PyVal.str "u")]
    (failureResult "w1" "jina_fetch_failed" (Option.some "jina_fetch_failed") [])
    [SvcCall.jinaFetch (PyVal.str "u"),
     SvcCall.markWebpageFailed "w1" "jina_fetch_failed"
       "Failed to fetch HTML from Jina API"]
    (failureResult "w1" "rapidapi_fetch_failed" (Option.some "rapidapi_fetch_failed") [])
    [SvcCall.rapidFetch (PyVal.str "u"),
     SvcCall.markWebpageFailed "w1" "rapidapi_failed_api" "RapidAPI returned no data"]
    true true rfl (List.cons_ne_nil _ _) rfl rfl rfl
    (Or.inl ⟨rfl, rfl, rfl⟩) rfl rfl).2.1

/-! ### Claim C3 -/

/-- C3 counterexample: the claim asserts no exception ever crosses the
orchestrator boundary, for every collaborator behavior; but when the
webpage fetch raises and the backend `mark_webpage_failed` call inside
the top-level `except` handler raises as well, that second exception
propagates out of `process_webpage`. -/
theorem C3_exception_escapes_when_mark_failed_raises :
    (processWebpage envMarkFailedRaises "w1").1 =
      Except.error "mark-failed endpoint down" := rfl

/-- C3 (amended): provided the backend `mark_webpage_failed` call never
raises, `process_webpage` always returns a structured result — no
exception escapes; and an unexpected exception (a raising webpage
fetch) is caught, reported to the backend under the generic
`processing_error` label, and returned as a structured failure. -/
theorem C3_no_escape_when_mark_ok :
    (∀ (env : ProcEnv) (wid : String),
      (∀ a b c, ∃ r, env.markWebpageFailed a b c = Except.ok r) →
      ∃ res, (processWebpage env wid).1 = Except.ok res) ∧
    (∀ (env : ProcEnv) (wid e : String) (b : Bool),
      env.fetchWebpage wid = Except.error e →
      env.markWebpageFailed wid "processing_error"
          ("Unexpected error processing webpage " ++ wid ++ ": " ++ e) = Except.ok b →
      (processWebpage env wid).1 =
        Except.ok (failureResult wid
          ("Unexpected error processing webpage " ++ wid ++ ": " ++ e)
          (Option.some "processing_error") []) ∧
      SvcCall.markWebpageFailed wid "processing_error"
          ("Unexpected error processing webpage " ++ wid ++ ": " ++ e) ∈
        (processWebpage env wid).2) := by
  constructor
  · intro env wid hmark
    unfold processWebpage
    dsimp only []
    repeat' first
      | split
      | exact processingErrorHandler_ok env wid _ _ hmark
      | exact bothFailedTail_ok env wid _ _ _ hmark
      | exact ⟨_, rfl⟩
  · intro env wid e b hfetch hmark
    unfold processWebpage
    rw [hfetch]
    unfold processingErrorHandler
    dsimp only []
    rw [hmark]
    exact ⟨rfl, by simp⟩

/-- C3 witness: with both providers empty and a healthy backend, the
run completes with a structured result; with a raising fetch it
reports `processing_error` and still returns a structured failure. -/
theorem C3_no_escape_when_mark_ok_witness :
    (∃ res, (processWebpage envBothProvidersFail "w1").1 = Except.ok res) ∧
      (processWebpage envFetchRaises "w1").1 =
        Except.ok (failureResult "w1"
          ("Unexpected error processing webpage " ++ "w1" ++ ": " ++ "connection reset")
          (Option.some "processing_error") []) :=
  ⟨C3_no_escape_when_mark_ok.1 envBothProvidersFail "w1" (fun _ _ _ => ⟨true, rfl⟩),
   (C3_no_escape_when_mark_ok.2 envFetchRaises "w1" "connection reset" true rfl rfl).1⟩

/-! ### Claim C7 -/

/-- C7: in every execution of `process_webpage`, the persistence call
`update_webpage` only ever receives a record that passes
`validate_extracted_data` (metadata attachment preserves a passing
validation), and a primary-path validation failure makes
`process_with_jina` return a structured non-success result (so
`process_webpage` proceeds to the fallback instead of persisting). -/
theorem C7_persist_only_validated :
    (∀ (env : ProcEnv) (wid w : String) (r : PyDict),
      SvcCall.updateWebpage w r ∈ (processWebpage env wid).2 →
        validateExtractedData r = true) ∧
    (∀ (env : ProcEnv) (wid : String) (url : PyVal) (htmlOpt : Option String) (b : Bool),
      env.jinaFetch url = Except.ok htmlOpt →
      optStrTruthy htmlOpt = true →
      (htmlToObject env.regex (PyVal.str (htmlOpt.getD ""))).isEmpty = false →
      validateExtractedData (htmlToObject env.regex (PyVal.str (htmlOpt.getD ""))) = false →
      env.markWebpageFailed wid "data_validation_failed"
          "Insufficient data extracted from HTML" = Except.ok b →
      (processWithJina env wid url).1 =
        Except.ok (failureResult wid "data_validation_failed"
          (Option.some "data_validation_failed") []) ∧
      pyTruthy (dictGet (failureResult wid "data_validation_failed"
          (Option.some "data_validation_failed") []) "success") = false) := by
  constructor
  · exact fun env wid w r hm => processWebpage_updateWebpage_validated env wid w r hm
  · intro env wid url htmlOpt b hfetch htruthy hempty hval hmark
    constructor
    · unfold processWithJina
      rw [hfetch]
      simp only [htruthy, if_true, hempty, Bool.false_eq_true, if_false, hval]
      unfold jinaMarkAndFail
      rw [hmark]
    · rfl

/-- C7 witness: in a run where the fallback provider succeeds, the
record handed to `update_webpage` passes the validator; and with a
never-matching extractor the primary validation failure yields the
structured `data_validation_failed` result. -/
theorem C7_persist_only_validated_witness :
    validateExtractedData
      (addProcessingMetadata (PyVal.str "T") (PyVal.str "W")
        (mapRapidapiToStandard
          [("name", PyVal.str "Acme"), ("description", PyVal.str "d"),
           ("website", PyVal.str "w")])
        "rapidapi" (PyVal.str "u")) = true :=
  C7_persist_only_validated.1 envRapidSuccess "w1" "w1"
    (addProcessingMetadata (PyVal.str "T") (PyVal.str "W")
      (mapRapidapiToStandard
        [("name", PyVal.str "Acme"), ("description", PyVal.str "d"),
         ("website", PyVal.str "w")])
      "rapidapi" (PyVal.str "u"))
    (by
      have h : (processWebpage envRapidSuccess "w1").2 =
          [SvcCall.fetchWebpage "w1", SvcCall.jinaFetch (PyVal.str "u"),
           SvcCall.markWebpageFailed "w1" "jina_fetch_failed"
             "Failed to fetch HTML from Jina API",
           SvcCall.rapidFetch (PyVal.str "u"),
           SvcCall.updateWebpage "w1"
             (addProcessingMetadata (PyVal.str "T") (PyVal.str "W")
               (mapRapidapiToStandard
                 [("name", PyVal.str "Acme"), ("description", PyVal.str "d"),
                  ("website", PyVal.str "w")])
               "rapidapi" (PyVal.str "u")),
           SvcCall.updateNodes "w1"
             (mapRapidapiToStandard
               [("name", PyVal.str "Acme"), ("description", PyVal.str "d"),
                ("website", PyVal.str "w")])] := rfl
      rw [h]
      exact List.mem_cons_of_mem _ (List.mem_cons_of_mem _ (List.mem_cons_of_mem _
        (List.mem_cons_of_mem _ (List.mem_cons_self _ _)))))

/-! ### Claim C5 -/

/-- C5 counterexample: the claim asserts the ten baseline keys are
present (as empty strings) for an empty input as well, but
`html_to_object("")` takes the early `return {}` and yields a mapping
with no keys at all. -/
theorem C5_empty_input_gives_empty_dict :
    htmlToObject noMatchEnv (PyVal.str "") = [] ∧
      (htmlToObject noMatchEnv (PyVal.str "")).lookup "name" = Option.none :=
  ⟨rfl, rfl⟩

/-- C5 (amended): an empty or non-string input yields the empty
mapping (`return {}`); a non-empty markup string in which none of the
recognized patterns matches yields exactly the ten baseline keys, each
mapped to the empty string. -/
theorem C5_no_marker_defaults (env : HtmlRegexEnv)
    (hn : ∀ p t, env.search p t = Option.none) :
    (∀ s : String, s ≠ "" → htmlToObject env (PyVal.str s) = extractedToDict {}) ∧
      (∀ v : PyVal, (∀ s, v ≠ PyVal.str s) → htmlToObject env v = []) := by
  constructor
  · intro s hs
    show (if s = "" then [] else _) = _
    rw [if_neg hs]
    simp only [hn]
  · intro v hv
    cases v with
    | str s => exact absurd rfl (hv s)
    | none => rfl
    | int n => rfl
    | bool b => rfl
    | list xs => rfl
    | dict xs => rfl

/-- C5 witness: in the never-matching regex environment, a non-empty
marker-free string yields the all-empty ten-key record and an integer
input yields the empty mapping. -/
theorem C5_no_marker_defaults_witness :
    htmlToObject noMatchEnv (PyVal.str "plain text") = extractedToDict {} ∧
      htmlToObject noMatchEnv (PyVal.int 5) = [] :=
  ⟨(C5_no_marker_defaults noMatchEnv (fun _ _ => rfl)).1 "plain text" (by decide),
   (C5_no_marker_defaults noMatchEnv (fun _ _ => rfl)).2 (PyVal.int 5)
     (fun s h => by cases h)⟩

/-! ### Claim C1 -/

/-- C1 counterexample: the claim asserts `validate(record, min_required=0)`
is true for every record, but `min_required or config.MIN_POPULATED_FIELDS_THRESHOLD`
treats an explicit `0` as falsy and falls back to the default threshold 3,
so the empty record fails validation even at `min_required=0`. -/
theorem C1_validate_min_required_zero_fails :
    validateExtractedData [] (Option.some 0) = false := by decide

/-- C1 (amended): for every record and every explicitly passed nonzero
`min_required`, `validate_extracted_data` returns true iff the number of
configured key fields that are present and non-blank is at least
`min_required`; an explicit `min_required=0` is treated as absent and
the configured default threshold (3) applies instead. -/
theorem C1_validate_iff_count_ge_min_required (data : PyDict) (n : Int) (hn : n ≠ 0) :
    validateExtractedData data (Option.some n) = true ↔
      (countPopulatedKeyFields data : Int) ≥ n := by
  simp [validateExtractedData, resolveMinRequired, hn]

/-- C1 witness: a record with three populated key fields passes at the
explicit threshold 3. -/
theorem C1_validate_iff_count_ge_min_required_witness :
    validateExtractedData
      [("name", PyVal.str "Acme"), ("about", PyVal.str "x"), ("website", PyVal.str "a.com")]
      (Option.some 3) = true :=
  (C1_validate_iff_count_ge_min_required
    [("name", PyVal.str "Acme"), ("about", PyVal.str "x"), ("website", PyVal.str "a.com")]
    3 (by decide)).mpr (by decide)

/-! ### Claim C10 -/

/-- C10: `validate_extracted_data` is monotone in populated fields: if
`r'` agrees with `r` on each configured key field except that some
fields blank or absent in `r` are populated in `r'`, then validation
at any fixed `min_required` succeeding on `r` implies it succeeds on `r'`. -/
theorem C10_validate_monotone (r r' : PyDict) (minRequired : Option Int)
    (h : ∀ f ∈ requiredFieldsForValidation,
      dictGet r' f = dictGet r f ∨
        (fieldPopulated r f = false ∧ fieldPopulated r' f = true))
    (hv : validateExtractedData r minRequired = true) :
    validateExtractedData r' minRequired = true := by
  have hmono : countPopulatedKeyFields r ≤ countPopulatedKeyFields r' := by
    apply length_filter_le_of_imp
    intro f hf hp
    rcases h f hf with heq | ⟨_, hp'⟩
    · simpa [fieldPopulated, heq] using hp
    · exact hp'
  simp only [validateExtractedData, decide_eq_true_eq] at hv ⊢
  exact le_trans hv (by exact_mod_cast hmono)

/-- C10 witness: populating `about` preserves a passing validation at
threshold 1. -/
theorem C10_validate_monotone_witness :
    validateExtractedData
      [("name", PyVal.str "Acme"), ("about", PyVal.str "desc")] (Option.some 1) = true :=
  C10_validate_monotone [("name", PyVal.str "Acme")]
    [("name", PyVal.str "Acme"), ("about", PyVal.str "desc")] (Option.some 1)
    (by
      intro f hf
      fin_cases hf <;> first
        | exact Or.inl rfl
        | exact Or.inr ⟨rfl, rfl⟩)
    (by decide)

end CompanyProc

